import Mathlib

/-!
# pyrosim simulator driver (`pyrosim/simulator/src/simulator.cpp`)

A shallow embedding of the simulation driver: the collision map filled by
`readCollisionFromPython`, the broad-phase callback `nearCallback` with
`handleRayCollision`, the stepping function `simulationStep` with
`endSimulation`, the headless loop of `main`, and the ingest loop
`readFromPython`.

Conventions of the embedding.

* The physics engine (ODE), the `Environment` class and the pipe reader are
  not part of `simulator.cpp`.  Their pure queries are fields of the
  structures `PhysicsEngine`, `Environment` and `PythonReader`; their calls
  with effects are recorded, in program order, as events of a trace.
* A finite `float` value (binary32) is represented by the rational number it
  denotes; a literal of the source stored in a `float` is the rational its
  rounding denotes.  The conversions between `int` and `float` that the C++
  code performs implicitly are the explicit functions `intToFloat` and
  `floatToInt`; `floatAdd` is the addition of `float`.
* `int` is a 32-bit signed integer, represented in `Int`; the one place where
  it is incremented reports overflow as undefined behaviour, and
  `contactLimit` says when the conversion and the array declaration of
  lines 392-393 are defined.
* Values of type `dReal` (`float` or `double`, by the build of ODE) that the
  driver writes as literals are kept as the decimal numbers of the source.
-/

namespace Pyrosim

/-! ## Physics-engine data -/

/-- Geometry classes of ODE (`ode/common.h`): the ten primitive classes
followed by the four space classes. -/
inductive GeomClass
  | sphere | box | capsule | cylinder | plane | ray | convex | geomTransform
  | triMesh | heightfield
  | simpleSpace | hashSpace | sweepAndPruneSpace | quadTreeSpace
  deriving DecidableEq, Repr

/-- A geom handle `dGeomID`, with what the driver reads from it: its class
(`dGeomGetClass`), the integer its user data points to (`dGeomGetData`, an
entity ID, or `COLLIDE_ALWAYS` for the ground plane) and the body it is
attached to (`dGeomGetBody`). -/
structure Geom where
  handle : Nat
  cls : GeomClass
  data : Int
  body : Nat
  deriving DecidableEq, Repr

/-- The test `dGeomIsSpace`: the class lies between `dFirstSpaceClass` and
`dLastSpaceClass`. -/
def dGeomIsSpace (o : Geom) : Bool :=
  match o.cls with
  | GeomClass.simpleSpace | GeomClass.hashSpace
  | GeomClass.sweepAndPruneSpace | GeomClass.quadTreeSpace => true
  | _ => false

/-- The part of `dContactGeom` the driver reads: the penetration depth and the
two geoms in contact. -/
structure ContactGeom where
  depth : ℚ
  g1 : Geom
  g2 : Geom
  deriving DecidableEq

/-- The surface parameters the driver writes into `dContact::surface`, of type
`dReal`; `mu = none` stands for `dInfinity`. -/
structure Surface where
  mode : Nat
  mu : Option ℚ
  slip1 : ℚ
  slip2 : ℚ
  deriving DecidableEq

def dContactSlip1 : Nat := 0x100
def dContactSlip2 : Nat := 0x200
def dContactApprox1 : Nat := 0x3000

/-- Pure queries of the physics engine used by the dispatcher:
`dAreConnected` on two bodies, and the narrow phase `dCollide o1 o2 N`, which
returns the contacts it generated (at most `N` by its contract). -/
structure PhysicsEngine where
  dAreConnected : Nat → Nat → Bool
  dCollide : Geom → Geom → Int → List ContactGeom

/-- Pure queries of the entity registry used by the dispatcher, by entity ID:
`getEntity(id)->getBody()` and `getEntity(id)->getCollisionGroupName()`. -/
structure Environment where
  getBody : Int → Nat
  getCollisionGroupName : Int → String

/-- Effects of the collision dispatcher, in program order.  The progress
messages that `handleRayCollision` writes to `std::cerr` are not recorded.

* `spaceCollide2 o1 o2`: `dSpaceCollide2(o1, o2, callbackData, &nearCallback)`;
* `spaceCollide o`: `dSpaceCollide((dSpaceID) o, callbackData, &nearCallback)`;
* `collide o1 o2 N`: the narrow-phase request `dCollide(o1, o2, N, ...)`;
* `collisionUpdate id depth r g b`: `rayObj->collisionUpdate(depth, r, g, b)`
  on the entity `getEntity(id)`;
* `contactJoint c s b1 b2`: `dJointCreateContact(world, contactgroup, ...)` for
  the contact `c` with surface `s`, followed by `dJointAttach` to `b1`, `b2`. -/
inductive Event
  | spaceCollide2 (o1 o2 : Geom)
  | spaceCollide (o : Geom)
  | collide (o1 o2 : Geom) (maxContacts : Int)
  | collisionUpdate (rayID : Int) (depth : ℚ) (r g b : ℚ)
  | contactJoint (c : ContactGeom) (s : Surface) (b1 b2 : Nat)
  deriving DecidableEq

/-- The event is a contact joint creation. -/
def Event.isContactJoint : Event → Bool
  | Event.contactJoint _ _ _ _ => true
  | _ => false

/-- The event is a narrow-phase request. -/
def Event.isCollide : Event → Bool
  | Event.collide _ _ _ => true
  | _ => false

/-- The event is an update of a Ray entity's observation. -/
def Event.isCollisionUpdate : Event → Bool
  | Event.collisionUpdate _ _ _ _ _ => true
  | _ => false

/-! ## Parameter store -/

/-- The global `std::map<std::string, float> parameters`, read with
`operator[]`: a key that was never written reads as `0`. -/
abbrev Parameters := String → ℚ

/-- The assignment `parameters[name] = value`. -/
def Parameters.set (p : Parameters) (name : String) (value : ℚ) : Parameters :=
  fun k => if k = name then value else p k

/-- The `float` nearest to the literal `0.01`, stored by `parameters["DT"] = 0.01`. -/
def float_0_01 : ℚ := 5368709 / 536870912

/-- The `float` nearest to the literal `9.8`; `parameters["GravityZ"] = -9.8f`
stores its negative. -/
def float_9_8 : ℚ := 10276045 / 1048576

/-- The function `initializeParameters`.  Every value is the `float` that the
assignment stores: the integers and zero are exact, `0.01` and `-9.8f` are
rounded to binary32. -/
def initializeParameters (p : Parameters) : Parameters :=
  ((((((((((p.set "DT" float_0_01).set "EvalSteps" 200).set "CameraX" 0).set "CameraY" 0).set
    "CameraZ" 0).set "CameraH" 90).set "CameraP" 0).set "CameraR" 0).set "GravityX" 0).set
    "GravityY" 0).set "GravityZ" (-float_9_8) |>.set "nContacts" 10

/-- The largest `int`. -/
def INT_MAX : Int := 2 ^ 31 - 1

/-- The smallest `int`. -/
def INT_MIN : Int := -2 ^ 31

/-- The value of the implicit conversion from `float` to `int` (as in
`const int N = parameters["nContacts"]`): the fractional part is discarded,
that is, the value is truncated toward zero.  C++ defines the conversion only
when this value is representable in `int`; `contactLimit` carries that
condition. -/
def floatToInt (v : ℚ) : Int :=
  Int.tdiv v.num (v.den : Int)

/-- Lines 392-393, `const int N = parameters["nContacts"]; dContact contact[N];`:
the contact limit `N`.  It is `none` when the behaviour is undefined: the
truncated value is not representable in `int`, or the array bound `N` is not
positive. -/
def contactLimit (params : Parameters) : Option Int :=
  let N := floatToInt (params "nContacts")
  if INT_MIN ≤ N ∧ N ≤ INT_MAX then
    if 1 ≤ N then some N else none
  else none

/-- The implicit conversion from `int` to `float` (as in
`evalStep == parameters["EvalSteps"]`, where the `int` operand is converted):
exact when the magnitude fits the 24-bit significand of binary32, otherwise
rounded to the nearest representable value, ties to the even significand. -/
def intToFloat (n : Int) : Int :=
  let a := n.natAbs
  if a < 2 ^ 24 then n
  else
    let e := Nat.log2 a - 23
    let q := a / 2 ^ e
    let r := a % 2 ^ e
    let half := 2 ^ (e - 1)
    let q1 := if half < r ∨ (r = half ∧ q % 2 = 1) then q + 1 else q
    Int.sign n * ((q1 * 2 ^ e : Nat) : Int)

/-- A value of type `float` that arithmetic can produce from finite operands:
a finite one, by the rational it denotes, or an infinity, by its sign. -/
inductive FloatValue
  | finite (q : ℚ)
  | infinite (negative : Bool)
  deriving DecidableEq

/-- The integer `e` with `2^e ≤ a < 2^(e+1)`, for a positive rational `a`. -/
def log2Floor (a : ℚ) : Int :=
  let e0 : Int := (Nat.log2 a.num.natAbs : Int) - (Nat.log2 a.den : Int)
  if a < (2 : ℚ) ^ e0 then e0 - 1 else e0

/-- Rounding of a rational to binary32, to nearest with ties to the even
significand: 24 bits of significand, least exponent -126 (below it the
spacing stays `2^-149`), and infinity once the rounded magnitude reaches
`2^128`. -/
def floatRound (x : ℚ) : FloatValue :=
  if x = 0 then FloatValue.finite 0
  else
    let a := |x|
    let e := max (log2Floor a) (-126)
    let quantum : ℚ := 2 ^ (e - 23)
    let n := a / quantum
    let f : Int := ⌊n⌋
    let r := n - f
    let m : Int := if 1 / 2 < r ∨ (r = 1 / 2 ∧ f % 2 = 1) then f + 1 else f
    let y := (m : ℚ) * quantum
    if 2 ^ 128 ≤ y then FloatValue.infinite (decide (x < 0))
    else FloatValue.finite (if x < 0 then -y else y)

/-- The addition of a `float` and a finite `float` (as in
`evalTime += parameters["DT"]`): the exact sum, rounded; an infinity stays. -/
def floatAdd : FloatValue → ℚ → FloatValue
  | FloatValue.finite a, b => floatRound (a + b)
  | FloatValue.infinite negative, _ => FloatValue.infinite negative

/-! ## Collision map -/

/-- The type `collisionPair`. -/
abbrev collisionPair := String × String

/-- The global `std::map<collisionPair, int> collisionMap`, as the list of its
entries; every key occurs at most once. -/
abbrev CollisionMap := List (collisionPair × Int)

/-- The member `collisionMap.count(pair)`: `1` when the key is present, `0`
otherwise. -/
def CollisionMap.count (m : CollisionMap) (pair : collisionPair) : Nat :=
  match List.lookup pair m with
  | some _ => 1
  | none => 0

/-- Reading `collisionMap[pair]`; an absent key reads as `0`. -/
def CollisionMap.get (m : CollisionMap) (pair : collisionPair) : Int :=
  (List.lookup pair m).getD 0

/-- The assignment `collisionMap[pair] = value`: the entry of the key is
replaced, or inserted when there was none. -/
def CollisionMap.assign (m : CollisionMap) (pair : collisionPair) (value : Int) :
    CollisionMap :=
  (pair, value) :: m.filter (fun e => !(e.1 == pair))

/-- The function `readCollisionFromPython`, after its two reads: both
orientations of the pair are set to `true` (the `int` 1). -/
def readCollisionFromPython (m : CollisionMap) (group1 group2 : String) : CollisionMap :=
  let pair1 : collisionPair := (group1, group2)
  let m1 := m.assign pair1 1
  let pair2 : collisionPair := (group2, group1)
  m1.assign pair2 1

/-- The collision map after a sequence of `AssignCollision` records, starting
from the empty map. -/
def collisionMapOf (records : List (String × String)) : CollisionMap :=
  records.foldl (fun m r => readCollisionFromPython m r.1 r.2) []

/-- An `AssignCollision` record `r` names the ordered pair `k`, in one of the
two orders. -/
def names (r : String × String) (k : collisionPair) : Prop :=
  k = (r.1, r.2) ∨ k = (r.2, r.1)

instance (r : String × String) (k : collisionPair) : Decidable (names r k) :=
  inferInstanceAs (Decidable (k = (r.1, r.2) ∨ k = (r.2, r.1)))

def COLLIDE_ALWAYS_STR : String := "Collide"

/-- The integer the user data of the ground plane points to. -/
def COLLIDE_ALWAYS : Int := -1

/-- The admission decision of `nearCallback` for two collision-group names
(lines 377-387): `false` is each of the two early returns, `true` is falling
through to contact generation. -/
def allowed (m : CollisionMap) (group1 group2 : String) : Bool :=
  if group1 != COLLIDE_ALWAYS_STR && group2 != COLLIDE_ALWAYS_STR then
    let pair : collisionPair := (group1, group2)
    if m.count pair == 0 then false
    else if m.get pair == 0 then false
    else true
  else true

/-! ## Collision dispatcher -/

/-- The function `handleRayCollision(ray, o2)`. -/
def handleRayCollision (pe : PhysicsEngine) (ray o2 : Geom) : List Event :=
  let contacts := pe.dCollide ray o2 1
  Event.collide ray o2 1 ::
    (match contacts with
     | [] => []
     | contact :: _ =>
       let rayID := ray.data
       if o2.cls = GeomClass.heightfield ∨ o2.cls = GeomClass.plane then
         [Event.collisionUpdate rayID contact.depth 0 0 0]
       else
         [Event.collisionUpdate rayID contact.depth 1 0 0])

/-- The surface every contact gets in `nearCallback`; the two slips are the
literal `0.01` of the source. -/
def contactSurface : Surface :=
  { mode := dContactSlip1 ||| dContactSlip2 ||| dContactApprox1
    mu := none
    slip1 := 1 / 100
    slip2 := 1 / 100 }

/-- The tail of `nearCallback` (lines 391-406): the narrow-phase request with
the contact limit `N`, then one contact joint for each returned contact.
These are the effects when `contactLimit` is defined. -/
def generateContacts (params : Parameters) (pe : PhysicsEngine) (o1 o2 : Geom) :
    List Event :=
  let N : Int := floatToInt (params "nContacts")
  let contacts := pe.dCollide o1 o2 N
  Event.collide o1 o2 N ::
    contacts.map (fun c => Event.contactJoint c contactSurface c.g1.body c.g2.body)

/-- The function `nearCallback(callbackData, o1, o2)`. -/
def nearCallback (params : Parameters) (m : CollisionMap) (env : Environment)
    (pe : PhysicsEngine) (o1 o2 : Geom) : List Event :=
  if dGeomIsSpace o1 || dGeomIsSpace o2 then
    [Event.spaceCollide2 o1 o2]
      ++ (if dGeomIsSpace o1 then [Event.spaceCollide o1] else [])
      ++ (if dGeomIsSpace o2 then [Event.spaceCollide o2] else [])
  else if o1.cls = GeomClass.ray then
    handleRayCollision pe o1 o2
  else if o2.cls = GeomClass.ray then
    handleRayCollision pe o2 o1
  else if o1.cls = GeomClass.plane ∨ o2.cls = GeomClass.plane ∨
      o1.cls = GeomClass.heightfield ∨ o2.cls = GeomClass.heightfield then
    generateContacts params pe o1 o2
  else
    let entityID1 := o1.data
    let entityID2 := o2.data
    if pe.dAreConnected (env.getBody entityID1) (env.getBody entityID2) then
      []
    else
      let group1 := env.getCollisionGroupName entityID1
      let group2 := env.getCollisionGroupName entityID2
      if allowed m group1 group2 then generateContacts params pe o1 o2 else []

/-! ## Stepping and termination -/

/-- Effects of the driver outside the collision dispatcher, in program order.

* `takeStep evalStep dt`: `environment->takeStep(evalStep, dt)`;
* `spaceCollide`: `dSpaceCollide(topspace, 0, &nearCallback)`, the broad phase
  of the top space with the dispatcher as callback;
* `worldStep dt`: `dWorldStep(world, dt)`;
* `jointGroupEmpty`: `dJointGroupEmpty(contactgroup)`;
* `cout n`: `std::cout << n` for an `int`;
* `writeToPython`: `environment->writeToPython()`;
* `cerr msg`: a line on `std::cerr`;
* `cerrSetTo name v`: the line `name set to v` on `std::cerr`;
* `exit status`: `exit(status)`;
* `readEntityFromPython payload`, `addToEntityFromPython payload`: the two
  readers of `Environment`, with the tokens they consumed;
* the remaining constructors are the set-up calls of `main` and
  `createEnvironment`. -/
inductive Effect
  | takeStep (evalStep : Int) (dt : ℚ)
  | spaceCollide
  | worldStep (dt : ℚ)
  | jointGroupEmpty
  | cout (n : Int)
  | writeToPython
  | cerr (msg : String)
  | cerrSetTo (name : String) (v : ℚ)
  | exit (status : Int)
  | readEntityFromPython (payload : List String)
  | addToEntityFromPython (payload : List String)
  | initializeODE
  | initializeEnvironment
  | worldSetGravity (x y z : ℚ)
  | createPlane
  | createInODE
  | worldSetAutoDisableFlag
  deriving DecidableEq

/-- The effect calls a member function of `Environment`: directly, or, for the
broad phase, through its callback `nearCallback`, which calls
`environment->getEntity` (lines 309, 319, 368, 369). -/
def Effect.callsEnvironment : Effect → Bool
  | Effect.takeStep _ _ => true
  | Effect.spaceCollide => true
  | Effect.writeToPython => true
  | Effect.readEntityFromPython _ => true
  | Effect.addToEntityFromPython _ => true
  | Effect.createInODE => true
  | _ => false

/-- What the controller receives on the result channel (`std::cout`): an
integer written by the driver, or the block that
`Environment::writeToPython` streams. -/
inductive ResultToken
  | int (n : Int)
  | sensorData
  deriving DecidableEq

/-- The result channel of a trace: its writes to `std::cout`, in order. -/
def resultChannel : List Effect → List ResultToken
  | [] => []
  | Effect.cout n :: rest => ResultToken.int n :: resultChannel rest
  | Effect.writeToPython :: rest => ResultToken.sensorData :: resultChannel rest
  | _ :: rest => resultChannel rest

/-- The exit status of a trace: the argument of its first `exit`. -/
def exitStatus : List Effect → Option Int
  | [] => none
  | Effect.exit status :: _ => some status
  | _ :: rest => exitStatus rest

/-- The globals `evalStep` and `evalTime`. -/
structure Clock where
  evalStep : Int
  evalTime : FloatValue
  deriving DecidableEq

/-- The function `endSimulation`; it does not return. -/
def endSimulation (evalStep : Int) : List Effect :=
  [Effect.cerr "Simulation Completed", Effect.cout evalStep, Effect.writeToPython,
   Effect.cerr "Success", Effect.exit 0]

/-- Result of one call of `simulationStep`: it returns (`running`), the process
exits inside it (`exited`), or the increment of `evalStep` overflows
(`undefinedBehaviour`). -/
inductive StepResult
  | running (s : Clock) (trace : List Effect)
  | exited (s : Clock) (trace : List Effect)
  | undefinedBehaviour (trace : List Effect)
  deriving DecidableEq

/-- The function `simulationStep`.  `fadd` is the addition of `float` that the
build uses for `evalTime += parameters["DT"]`; in binary32 arithmetic it is
`floatAdd`. -/
def simulationStep (fadd : FloatValue → ℚ → FloatValue) (params : Parameters) (s : Clock) : StepResult :=
  let calls := [Effect.takeStep s.evalStep (params "DT"), Effect.spaceCollide,
    Effect.worldStep (params "DT"), Effect.jointGroupEmpty]
  let evalTime := fadd s.evalTime (params "DT")
  if s.evalStep = INT_MAX then StepResult.undefinedBehaviour calls
  else
    let evalStep := s.evalStep + 1
    if ((intToFloat evalStep : Int) : ℚ) = params "EvalSteps" then
      StepResult.exited ⟨evalStep, evalTime⟩ (calls ++ endSimulation evalStep)
    else
      StepResult.running ⟨evalStep, evalTime⟩ calls

/-- The effects of a call of `simulationStep`, in program order. -/
def StepResult.trace : StepResult → List Effect
  | StepResult.running _ t => t
  | StepResult.exited _ t => t
  | StepResult.undefinedBehaviour t => t

/-- Result of a run of the driver: the process exited after `calls` calls of
`simulationStep`; or it ran into undefined behaviour; or the stream ended
inside ingest; or the fuel given to the model ran out with the loop still
running. -/
inductive RunResult
  | exited (calls : Nat) (s : Clock) (trace : List Effect)
  | undefinedBehaviour (calls : Nat) (trace : List Effect)
  | shortRead (trace : List Effect)
  | outOfFuel (calls : Nat) (s : Clock) (trace : List Effect)
  deriving DecidableEq

/-- The headless loop `while(1){ simulationStep(); }` of `main`, with the number
of calls made so far and the trace so far. -/
def blindLoop (fadd : FloatValue → ℚ → FloatValue) (params : Parameters) :
    Nat → Nat → Clock → List Effect → RunResult
  | 0, calls, s, trace => RunResult.outOfFuel calls s trace
  | fuel + 1, calls, s, trace =>
    match simulationStep fadd params s with
    | StepResult.running s1 t => blindLoop fadd params fuel (calls + 1) s1 (trace ++ t)
    | StepResult.exited s1 t => RunResult.exited (calls + 1) s1 (trace ++ t)
    | StepResult.undefinedBehaviour t => RunResult.undefinedBehaviour (calls + 1) (trace ++ t)

/-! ## Ingest -/

/-- What `pythonReader.hpp` and the readers of `Environment` do with the
token stream: `readFloat` decodes the token read by
`readValueFromPython<float>`; `entityTokens` and `addTokens` give the number
of tokens that `readEntityFromPython` and `addToEntityFromPython` consume
from the stream that follows their tag. -/
structure PythonReader where
  readFloat : String → ℚ
  entityTokens : List String → Nat
  addTokens : List String → Nat

/-- The globals filled by ingest. -/
structure Ingest where
  parameters : Parameters
  collisionMap : CollisionMap

/-- Result of `readFromPython`: it returns after `Done` (`finished`), the
process exits inside it (`exited`), or the stream ends inside a record
(`shortRead`).  `rest` is the part of the stream that was not read. -/
inductive ReadResult
  | finished (st : Ingest) (trace : List Effect) (rest : List String)
  | exited (trace : List Effect) (rest : List String)
  | shortRead (trace : List Effect)

/-- The function `readParameterFromPython` on the stream after its tag. -/
def readParameterFromPython (rd : PythonReader) (st : Ingest) :
    List String → Option (Ingest × List Effect × List String)
  | paramName :: value :: rest =>
    let v := rd.readFloat value
    some ({ st with parameters := st.parameters.set paramName v },
      [Effect.cerrSetTo paramName v], rest)
  | _ => none

/-- The progress line and the two reads of `readCollisionFromPython` on the
stream after its tag, followed by its two assignments. -/
def readCollisionRecord (st : Ingest) :
    List String → Option (Ingest × List Effect × List String)
  | group1 :: group2 :: rest =>
    some ({ st with collisionMap := readCollisionFromPython st.collisionMap group1 group2 },
      [Effect.cerr "Reading Collision Assignment"], rest)
  | _ => none

/-- The loop of `readFromPython`: `stream` starts at the tag that
`readStringFromPython(incomingString)` reads next. -/
def readLoop (rd : PythonReader) (st : Ingest) (trace : List Effect) :
    List String → ReadResult
  | [] => ReadResult.shortRead trace
  | incomingString :: rest =>
    if incomingString = "Done" then
      ReadResult.finished st (trace ++ [Effect.cerr "Finished Reading In From Python"]) rest
    else if incomingString = "Parameter" then
      match h : readParameterFromPython rd st rest with
      | some (st1, t, rest1) => readLoop rd st1 (trace ++ t) rest1
      | none => ReadResult.shortRead trace
    else if incomingString = "Entity" then
      readLoop rd st
        (trace ++ [Effect.readEntityFromPython (rest.take (rd.entityTokens rest))])
        (rest.drop (rd.entityTokens rest))
    else if incomingString = "Add" then
      readLoop rd st
        (trace ++ [Effect.addToEntityFromPython (rest.take (rd.addTokens rest))])
        (rest.drop (rd.addTokens rest))
    else if incomingString = "AssignCollision" then
      match h : readCollisionRecord st rest with
      | some (st1, t, rest1) => readLoop rd st1 (trace ++ t) rest1
      | none => ReadResult.shortRead (trace ++ [Effect.cerr "Reading Collision Assignment"])
    else
      ReadResult.exited
        (trace ++ [Effect.cerr ("INVALID READ IN " ++ incomingString), Effect.exit 0]) rest
termination_by stream => stream.length
decreasing_by
  all_goals simp_wf
  · cases rest with
    | nil => simp [readParameterFromPython] at h
    | cons a l =>
      cases l with
      | nil => simp [readParameterFromPython] at h
      | cons b l2 =>
        simp only [readParameterFromPython, Option.some.injEq, Prod.mk.injEq] at h
        obtain ⟨_, _, h3⟩ := h
        subst h3
        simp only [List.length_cons]
        omega
  · have := List.length_drop (rd.entityTokens rest) rest
    omega
  · have := List.length_drop (rd.addTokens rest) rest
    omega
  · cases rest with
    | nil => simp [readCollisionRecord] at h
    | cons a l =>
      cases l with
      | nil => simp [readCollisionRecord] at h
      | cons b l2 =>
        simp only [readCollisionRecord, Option.some.injEq, Prod.mk.injEq] at h
        obtain ⟨_, _, h3⟩ := h
        subst h3
        simp only [List.length_cons]
        omega

/-- The function `readFromPython`. -/
def readFromPython (rd : PythonReader) (st : Ingest) (stream : List String) : ReadResult :=
  readLoop rd st [] stream

/-- The globals before ingest: the parameters set by `initializeParameters`
and the empty collision map. -/
def initialIngest : Ingest :=
  { parameters := initializeParameters (fun _ => 0), collisionMap := [] }

/-- The function `createEnvironment`; `createPlane` stands for `dCreatePlane`
followed by `dGeomSetData(plane, &COLLIDE_ALWAYS)`. -/
def createEnvironment (params : Parameters) : List Effect :=
  [Effect.worldSetGravity (params "GravityX") (params "GravityY") (params "GravityZ"),
   Effect.createPlane, Effect.createInODE, Effect.cerr "Completed Creation"]

/-- The function `main` when `-blind` is among the arguments. -/
def mainBlind (rd : PythonReader) (fadd : FloatValue → ℚ → FloatValue) (stream : List String)
    (fuel : Nat) : RunResult :=
  let start := [Effect.initializeODE, Effect.initializeEnvironment]
  match readFromPython rd initialIngest stream with
  | ReadResult.shortRead t => RunResult.shortRead (start ++ t)
  | ReadResult.exited t _ => RunResult.exited 0 ⟨0, FloatValue.finite 0⟩ (start ++ t)
  | ReadResult.finished st t _ =>
    blindLoop fadd st.parameters fuel 0 ⟨0, FloatValue.finite 0⟩
      (start ++ t ++ createEnvironment st.parameters
        ++ [Effect.worldSetAutoDisableFlag, Effect.cerr "Simulation Starting"])

/-! ## Data for the examples -/

/-- Decoding of a token made of decimal digits. -/
def decodeNat (tok : String) : Nat :=
  tok.data.foldl (fun acc c => 10 * acc + (c.toNat - 48)) 0

/-- A reader for the examples: a numeric token is a decimal natural that a
`float` holds exactly, and the readers of `Environment` consume one token. -/
def sampleReader : PythonReader :=
  { readFloat := fun tok => (decodeNat tok : ℚ)
    entityTokens := fun _ => 1
    addTokens := fun _ => 1 }

def sampleBoxA : Geom := ⟨1, GeomClass.box, 1, 1⟩
def sampleBoxB : Geom := ⟨2, GeomClass.box, 2, 2⟩
def sampleSphere : Geom := ⟨3, GeomClass.sphere, 3, 3⟩
def sampleGround : Geom := ⟨0, GeomClass.plane, COLLIDE_ALWAYS, 0⟩
def sampleRay : Geom := ⟨4, GeomClass.ray, 4, 0⟩

/-- An entity registry for the examples: entity `id` owns body `id`; entity 1
is in group "A", entity 2 in group "B", every other one in "Collide". -/
def sampleEnvironment : Environment :=
  { getBody := fun id => id.toNat
    getCollisionGroupName := fun id =>
      if id = 1 then "A" else if id = 2 then "B" else "Collide" }

/-- An engine for the examples: bodies 1 and 3 are joined, and every
narrow-phase request returns one contact of depth 1/2. -/
def sampleEngine : PhysicsEngine :=
  { dAreConnected := fun b1 b2 => (b1 == 1 && b2 == 3) || (b1 == 3 && b2 == 1)
    dCollide := fun o1 o2 _ => [⟨1 / 2, o1, o2⟩] }

/-- The parameters after `initializeParameters` on the empty store. -/
def defaultParameters : Parameters := initializeParameters (fun _ => 0)

/-- A clock one step before the default `EvalSteps`. -/
def sampleClock : Clock := ⟨199, FloatValue.finite 2⟩

/-- The clock after four steps under the default parameters: `evalTime` is
four times the `float` 0.01, each of the four additions being exact. -/
def clockAfterFour : Clock := ⟨4, FloatValue.finite (4 * float_0_01)⟩

/-- Parameters with the two integer-semantic values stored with a fraction:
`nContacts = 10.75` and `EvalSteps = 2.75`. -/
def fractionalParameters : Parameters :=
  (defaultParameters.set "nContacts" (43 / 4)).set "EvalSteps" (11 / 4)

/-! ## Lemmas on the collision map -/

theorem lookup_filter_ne (m : CollisionMap) (k k1 : collisionPair) (h : k ≠ k1) :
    List.lookup k (m.filter (fun e => !(e.1 == k1))) = List.lookup k m := by
  induction m with
  | nil => rfl
  | cons e rest ih =>
    obtain ⟨a, b⟩ := e
    by_cases hk1 : a = k1
    · subst hk1
      have hka : (k == a) = false := by simpa using h
      simp [List.filter, List.lookup, hka, ih]
    · have hne : (a == k1) = false := by simpa using hk1
      simp only [List.filter, hne, Bool.not_false, List.lookup, ih]

theorem lookup_assign (m : CollisionMap) (k k1 : collisionPair) (v : Int) :
    List.lookup k (m.assign k1 v) = if k = k1 then some v else List.lookup k m := by
  unfold CollisionMap.assign
  by_cases h : k = k1
  · subst h
    simp [List.lookup]
  · have hb : (k == k1) = false := by simpa using h
    simp only [List.lookup, hb, h, if_false]
    exact lookup_filter_ne m k k1 h

theorem lookup_readCollisionFromPython (m : CollisionMap) (g1 g2 : String)
    (k : collisionPair) :
    List.lookup k (readCollisionFromPython m g1 g2) =
      if names (g1, g2) k then some 1 else List.lookup k m := by
  unfold readCollisionFromPython names
  simp only [lookup_assign]
  by_cases h2 : k = (g2, g1)
  · simp [h2]
  · by_cases h1 : k = (g1, g2)
    · simp [h1]
    · simp [h1, h2]

theorem lookup_foldl (records : List (String × String)) (m : CollisionMap)
    (k : collisionPair) :
    List.lookup k (records.foldl (fun m r => readCollisionFromPython m r.1 r.2) m) =
      if ∃ r ∈ records, names r k then some 1 else List.lookup k m := by
  induction records generalizing m with
  | nil => simp
  | cons r rest ih =>
    simp only [List.foldl_cons, ih, lookup_readCollisionFromPython]
    by_cases hrest : ∃ x ∈ rest, names x k
    · have : ∃ x ∈ r :: rest, names x k := by
        obtain ⟨x, hx, hn⟩ := hrest
        exact ⟨x, List.mem_cons_of_mem _ hx, hn⟩
      simp [hrest, this]
    · by_cases hr : names r k
      · have : ∃ x ∈ r :: rest, names x k := ⟨r, List.mem_cons_self _ _, hr⟩
        have hr2 : names (r.1, r.2) k := hr
        simp [hrest, this, hr2]
      · have : ¬ ∃ x ∈ r :: rest, names x k := by
          rintro ⟨x, hx, hn⟩
          rcases List.mem_cons.mp hx with rfl | hx
          · exact hr hn
          · exact hrest ⟨x, hx, hn⟩
        have hr2 : ¬ names (r.1, r.2) k := hr
        simp [hrest, this, hr2]

theorem lookup_collisionMapOf (records : List (String × String)) (k : collisionPair) :
    List.lookup k (collisionMapOf records) =
      if ∃ r ∈ records, names r k then some 1 else none := by
  unfold collisionMapOf
  rw [lookup_foldl]
  rfl

theorem allowed_collisionMapOf (records : List (String × String)) (g1 g2 : String) :
    allowed (collisionMapOf records) g1 g2 = true ↔
      (g1 = "Collide" ∨ g2 = "Collide" ∨ ∃ r ∈ records, names r (g1, g2)) := by
  unfold allowed CollisionMap.count CollisionMap.get COLLIDE_ALWAYS_STR
  simp only [lookup_collisionMapOf]
  by_cases h1 : g1 = "Collide"
  · simp [h1]
  · by_cases h2 : g2 = "Collide"
    · simp [h2]
    · by_cases hr : ∃ r ∈ records, names r (g1, g2)
      · simp only [hr, if_true]
        simp [h1, h2]
      · simp only [hr, if_false]
        simp [h1, h2]

theorem names_swap (r : String × String) (a b : String) :
    names r (a, b) ↔ names r (b, a) := by
  unfold names
  simp only [Prod.mk.injEq]
  constructor <;> rintro (⟨h1, h2⟩ | ⟨h1, h2⟩) <;> simp [h1, h2]

/-! ## The collision dispatcher -/

theorem generateContacts_joints (params : Parameters) (pe : PhysicsEngine) (o1 o2 : Geom) :
    ((generateContacts params pe o1 o2).filter Event.isContactJoint).length =
      (pe.dCollide o1 o2 (floatToInt (params "nContacts"))).length := by
  unfold generateContacts
  simp only [List.filter, Event.isContactJoint]
  induction pe.dCollide o1 o2 (floatToInt (params "nContacts")) with
  | nil => rfl
  | cons c cs ih => simp [List.filter, Event.isContactJoint, ih]

theorem nearCallback_bodies (params : Parameters) (m : CollisionMap) (env : Environment)
    (pe : PhysicsEngine) (o1 o2 : Geom)
    (hs1 : dGeomIsSpace o1 = false) (hs2 : dGeomIsSpace o2 = false)
    (hr1 : o1.cls ≠ GeomClass.ray) (hr2 : o2.cls ≠ GeomClass.ray)
    (hp1 : o1.cls ≠ GeomClass.plane) (hp2 : o2.cls ≠ GeomClass.plane)
    (hh1 : o1.cls ≠ GeomClass.heightfield) (hh2 : o2.cls ≠ GeomClass.heightfield) :
    nearCallback params m env pe o1 o2 =
      if pe.dAreConnected (env.getBody o1.data) (env.getBody o2.data) then []
      else if allowed m (env.getCollisionGroupName o1.data) (env.getCollisionGroupName o2.data)
        then generateContacts params pe o1 o2 else [] := by
  unfold nearCallback
  simp [hs1, hs2, hr1, hr2, hp1, hp2, hh1, hh2]

/-- C1: for a collision map built from the empty map by any sequence of
AssignCollision records, and two geoms that are neither spaces, rays, planes
nor heightfields and whose bodies are not connected, `nearCallback` issues the
narrow-phase request (and then is exactly contact generation) if and only if
one of the two group names is "Collide" or some record names the two groups
together, in either order; otherwise it does nothing. -/
theorem nearCallback_contacts_iff (records : List (String × String)) (params : Parameters)
    (env : Environment) (pe : PhysicsEngine) (o1 o2 : Geom)
    (hs1 : dGeomIsSpace o1 = false) (hs2 : dGeomIsSpace o2 = false)
    (hr1 : o1.cls ≠ GeomClass.ray) (hr2 : o2.cls ≠ GeomClass.ray)
    (hp1 : o1.cls ≠ GeomClass.plane) (hp2 : o2.cls ≠ GeomClass.plane)
    (hh1 : o1.cls ≠ GeomClass.heightfield) (hh2 : o2.cls ≠ GeomClass.heightfield)
    (hconn : pe.dAreConnected (env.getBody o1.data) (env.getBody o2.data) = false) :
    ((∃ e ∈ nearCallback params (collisionMapOf records) env pe o1 o2, e.isCollide = true) ↔
      (env.getCollisionGroupName o1.data = "Collide" ∨
        env.getCollisionGroupName o2.data = "Collide" ∨
        ∃ r ∈ records, r = (env.getCollisionGroupName o1.data,
              env.getCollisionGroupName o2.data) ∨
          r = (env.getCollisionGroupName o2.data, env.getCollisionGroupName o1.data))) ∧
    ((∃ e ∈ nearCallback params (collisionMapOf records) env pe o1 o2, e.isCollide = true) →
      nearCallback params (collisionMapOf records) env pe o1 o2 =
        generateContacts params pe o1 o2) ∧
    ((¬ ∃ e ∈ nearCallback params (collisionMapOf records) env pe o1 o2, e.isCollide = true) →
      nearCallback params (collisionMapOf records) env pe o1 o2 = []) := by
  have hnames : ∀ r : String × String,
      names r (env.getCollisionGroupName o1.data, env.getCollisionGroupName o2.data) ↔
        (r = (env.getCollisionGroupName o1.data, env.getCollisionGroupName o2.data) ∨
          r = (env.getCollisionGroupName o2.data, env.getCollisionGroupName o1.data)) := by
    intro r
    obtain ⟨a, b⟩ := r
    unfold names
    simp only [Prod.mk.injEq]
    constructor <;> rintro (⟨h1, h2⟩ | ⟨h1, h2⟩) <;> simp [h1, h2]
  have hadm := allowed_collisionMapOf records (env.getCollisionGroupName o1.data)
    (env.getCollisionGroupName o2.data)
  simp only [hnames] at hadm
  have hn : nearCallback params (collisionMapOf records) env pe o1 o2 =
      if allowed (collisionMapOf records) (env.getCollisionGroupName o1.data)
          (env.getCollisionGroupName o2.data) = true
        then generateContacts params pe o1 o2 else [] := by
    rw [nearCallback_bodies params _ env pe o1 o2 hs1 hs2 hr1 hr2 hp1 hp2 hh1 hh2, hconn]
    rfl
  by_cases ha : allowed (collisionMapOf records) (env.getCollisionGroupName o1.data)
      (env.getCollisionGroupName o2.data) = true
  · have hex : ∃ e ∈ generateContacts params pe o1 o2, e.isCollide = true :=
      ⟨Event.collide o1 o2 (floatToInt (params "nContacts")), by simp [generateContacts], rfl⟩
    rw [hn, if_pos ha]
    exact ⟨⟨fun _ => hadm.mp ha, fun _ => hex⟩, fun _ => rfl, fun h => absurd hex h⟩
  · rw [hn, if_neg ha]
    have hnone : ¬ ∃ e ∈ ([] : List Event), e.isCollide = true := by simp
    exact ⟨⟨fun h => absurd h hnone, fun h => absurd (hadm.mpr h) ha⟩,
      fun h => absurd h hnone, fun _ => rfl⟩

/-- C2: for a collision map built from the empty map by any sequence of
AssignCollision records, the admission decision of the dispatcher is the same
for the ordered pairs (a, b) and (b, a). -/
theorem allowed_symmetric (records : List (String × String)) (a b : String) :
    allowed (collisionMapOf records) a b = allowed (collisionMapOf records) b a := by
  have h1 := allowed_collisionMapOf records a b
  have h2 := allowed_collisionMapOf records b a
  have h3 : (∃ r ∈ records, names r (a, b)) ↔ (∃ r ∈ records, names r (b, a)) := by
    constructor <;> rintro ⟨r, hr, hn⟩
    · exact ⟨r, hr, (names_swap r a b).mp hn⟩
    · exact ⟨r, hr, (names_swap r b a).mp hn⟩
  have h4 : allowed (collisionMapOf records) a b = true ↔
      allowed (collisionMapOf records) b a = true := by
    rw [h1, h2, h3]
    tauto
  cases hx : allowed (collisionMapOf records) a b <;>
    cases hy : allowed (collisionMapOf records) b a <;> simp_all

/-- C3: for two geoms that are neither spaces, rays, planes nor heightfields
and whose bodies are connected by a joint, `nearCallback` returns without any
effect: no narrow-phase request and no contact joint, whatever the parameters,
the collision-group names and the collision map. -/
theorem nearCallback_connected (params : Parameters) (m : CollisionMap) (env : Environment)
    (pe : PhysicsEngine) (o1 o2 : Geom)
    (hs1 : dGeomIsSpace o1 = false) (hs2 : dGeomIsSpace o2 = false)
    (hr1 : o1.cls ≠ GeomClass.ray) (hr2 : o2.cls ≠ GeomClass.ray)
    (hp1 : o1.cls ≠ GeomClass.plane) (hp2 : o2.cls ≠ GeomClass.plane)
    (hh1 : o1.cls ≠ GeomClass.heightfield) (hh2 : o2.cls ≠ GeomClass.heightfield)
    (hconn : pe.dAreConnected (env.getBody o1.data) (env.getBody o2.data) = true) :
    nearCallback params m env pe o1 o2 = [] := by
  rw [nearCallback_bodies params m env pe o1 o2 hs1 hs2 hr1 hr2 hp1 hp2 hh1 hh2, hconn]
  rfl

/-- C4: for two geoms neither of which is a space or a ray and at least one of
which is a plane or a heightfield, `nearCallback` is the narrow-phase request
followed by one contact joint per returned contact; the collision-group names,
the collision map and `dAreConnected` do not occur in the result. -/
theorem nearCallback_terrain (params : Parameters) (m : CollisionMap) (env : Environment)
    (pe : PhysicsEngine) (o1 o2 : Geom)
    (hs1 : dGeomIsSpace o1 = false) (hs2 : dGeomIsSpace o2 = false)
    (hr1 : o1.cls ≠ GeomClass.ray) (hr2 : o2.cls ≠ GeomClass.ray)
    (hterrain : o1.cls = GeomClass.plane ∨ o1.cls = GeomClass.heightfield ∨
      o2.cls = GeomClass.plane ∨ o2.cls = GeomClass.heightfield) :
    nearCallback params m env pe o1 o2 =
      Event.collide o1 o2 (floatToInt (params "nContacts")) ::
        (pe.dCollide o1 o2 (floatToInt (params "nContacts"))).map
          (fun c => Event.contactJoint c contactSurface c.g1.body c.g2.body) ∧
    ((nearCallback params m env pe o1 o2).filter Event.isContactJoint).length =
      (pe.dCollide o1 o2 (floatToInt (params "nContacts"))).length := by
  have hcond : o1.cls = GeomClass.plane ∨ o2.cls = GeomClass.plane ∨
      o1.cls = GeomClass.heightfield ∨ o2.cls = GeomClass.heightfield := by tauto
  have h : nearCallback params m env pe o1 o2 = generateContacts params pe o1 o2 := by
    unfold nearCallback
    simp only [hs1, hs2, Bool.or_self, Bool.false_eq_true, if_false, hr1, hr2, hcond, if_true]
  rw [h]
  exact ⟨rfl, generateContacts_joints params pe o1 o2⟩

/-- C8: for a pair of geoms, neither a space, that contains a ray,
`nearCallback` is `handleRayCollision` with the ray as first argument (the
first geom when it is a ray, the second otherwise).  `handleRayCollision`
requests a single contact; with none returned it does nothing else; with one
returned it updates, once, the Ray entity whose ID is in the user data of the
ray geom, with the depth of the contact and the colour (0,0,0) when the other
geom is a plane or heightfield and (1,0,0) otherwise.  No contact joint is
created. -/
theorem nearCallback_ray (params : Parameters) (m : CollisionMap) (env : Environment)
    (pe : PhysicsEngine) (o1 o2 : Geom)
    (hs1 : dGeomIsSpace o1 = false) (hs2 : dGeomIsSpace o2 = false)
    (hray : o1.cls = GeomClass.ray ∨ o2.cls = GeomClass.ray) :
    ∃ ray other : Geom,
      ((o1.cls = GeomClass.ray ∧ ray = o1 ∧ other = o2) ∨
        (o1.cls ≠ GeomClass.ray ∧ ray = o2 ∧ other = o1)) ∧
      ray.cls = GeomClass.ray ∧
      nearCallback params m env pe o1 o2 = handleRayCollision pe ray other ∧
      handleRayCollision pe ray other =
        Event.collide ray other 1 ::
          (match (pe.dCollide ray other 1).head? with
           | none => []
           | some contact =>
             [Event.collisionUpdate ray.data contact.depth
               (if other.cls = GeomClass.plane ∨ other.cls = GeomClass.heightfield
                 then 0 else 1) 0 0]) ∧
      (nearCallback params m env pe o1 o2).filter Event.isContactJoint = [] ∧
      ((nearCallback params m env pe o1 o2).filter Event.isCollisionUpdate).length =
        (if pe.dCollide ray other 1 = [] then 0 else 1) := by
  have key : ∀ ray other : Geom,
      handleRayCollision pe ray other =
        Event.collide ray other 1 ::
          (match (pe.dCollide ray other 1).head? with
           | none => []
           | some contact =>
             [Event.collisionUpdate ray.data contact.depth
               (if other.cls = GeomClass.plane ∨ other.cls = GeomClass.heightfield
                 then 0 else 1) 0 0]) ∧
      (handleRayCollision pe ray other).filter Event.isContactJoint = [] ∧
      ((handleRayCollision pe ray other).filter Event.isCollisionUpdate).length =
        (if pe.dCollide ray other 1 = [] then 0 else 1) := by
    intro ray other
    unfold handleRayCollision
    cases hc : pe.dCollide ray other 1 with
    | nil => simp [List.filter, Event.isContactJoint, Event.isCollisionUpdate]
    | cons c cs =>
      by_cases ht : other.cls = GeomClass.heightfield ∨ other.cls = GeomClass.plane
      · have ht2 : other.cls = GeomClass.plane ∨ other.cls = GeomClass.heightfield := by tauto
        simp [List.filter, Event.isContactJoint, Event.isCollisionUpdate, ht, ht2]
      · have ht2 : ¬ (other.cls = GeomClass.plane ∨ other.cls = GeomClass.heightfield) := by
          tauto
        simp [List.filter, Event.isContactJoint, Event.isCollisionUpdate, ht, ht2]
  by_cases h1 : o1.cls = GeomClass.ray
  · have hn : nearCallback params m env pe o1 o2 = handleRayCollision pe o1 o2 := by
      unfold nearCallback
      simp only [hs1, hs2, Bool.or_self, Bool.false_eq_true, if_false, h1, if_true]
    refine ⟨o1, o2, Or.inl ⟨h1, rfl, rfl⟩, h1, hn, (key o1 o2).1, ?_, ?_⟩
    · rw [hn]; exact (key o1 o2).2.1
    · rw [hn]; exact (key o1 o2).2.2
  · have h2 : o2.cls = GeomClass.ray := by tauto
    have hn : nearCallback params m env pe o1 o2 = handleRayCollision pe o2 o1 := by
      unfold nearCallback
      simp only [hs1, hs2, Bool.or_self, Bool.false_eq_true, if_false, h1, h2, if_true]
    refine ⟨o2, o1, Or.inr ⟨h1, rfl, rfl⟩, h2, hn, (key o2 o1).1, ?_, ?_⟩
    · rw [hn]; exact (key o2 o1).2.1
    · rw [hn]; exact (key o2 o1).2.2

/-! ## Conversions, one step, the loop and the ingest loop -/

theorem log2_pow24 : Nat.log2 16777216 = 24 := by
  have h := @Nat.log2_two_pow 24
  norm_num at h
  exact h

theorem intToFloat_exact (n : Int) (h : n.natAbs ≤ 2 ^ 24) : intToFloat n = n := by
  by_cases hlt : n.natAbs < 2 ^ 24
  · unfold intToFloat
    simp only [hlt, if_true]
  · have habs : n.natAbs = 16777216 := by
      norm_num at h hlt
      omega
    have hs : Int.sign 16777216 = 1 := Int.sign_eq_one_of_pos (by norm_num)
    rcases Int.natAbs_eq n with hn | hn
    · rw [habs] at hn
      subst hn
      norm_num [intToFloat, log2_pow24, hs]
    · rw [habs] at hn
      subst hn
      norm_num [intToFloat, log2_pow24, hs]

theorem intToFloat_ne_zero (n : Int) (h : n ≠ 0) : intToFloat n ≠ 0 := by
  unfold intToFloat
  by_cases hlt : n.natAbs < 2 ^ 24
  · simp only [hlt, if_true]
    exact h
  · simp only [hlt, if_false]
    have ha : n.natAbs ≠ 0 := by
      intro h0
      exact h (Int.natAbs_eq_zero.mp h0)
    have hpow : 2 ^ (n.natAbs.log2 - 23) ≤ n.natAbs :=
      le_trans (Nat.pow_le_pow_right (by norm_num) (Nat.sub_le _ _)) (Nat.log2_self_le ha)
    have hq : 1 ≤ n.natAbs / 2 ^ (n.natAbs.log2 - 23) :=
      (Nat.one_le_div_iff (by positivity)).mpr hpow
    have hs : Int.sign n ≠ 0 := by
      intro h0
      exact h (Int.sign_eq_zero_iff_zero.mp h0)
    apply mul_ne_zero hs
    have hpos : 0 < 2 ^ (n.natAbs.log2 - 23) := by positivity
    have : 0 < (if 2 ^ (n.natAbs.log2 - 23 - 1) < n.natAbs % 2 ^ (n.natAbs.log2 - 23) ∨
        (n.natAbs % 2 ^ (n.natAbs.log2 - 23) = 2 ^ (n.natAbs.log2 - 23 - 1) ∧
          n.natAbs / 2 ^ (n.natAbs.log2 - 23) % 2 = 1)
        then n.natAbs / 2 ^ (n.natAbs.log2 - 23) + 1
        else n.natAbs / 2 ^ (n.natAbs.log2 - 23)) := by
      split <;> omega
    have := Nat.mul_pos this hpos
    exact_mod_cast this.ne'

theorem resultChannel_append (a b : List Effect) :
    resultChannel (a ++ b) = resultChannel a ++ resultChannel b := by
  induction a with
  | nil => rfl
  | cons e rest ih => cases e <;> simp [resultChannel, ih]

theorem floatToInt_nonneg (v : ℚ) (h : 0 ≤ v) : floatToInt v = ⌊v⌋ := by
  unfold floatToInt
  rw [Rat.floor_def]
  have : 0 ≤ v.num := Rat.num_nonneg.mpr h
  exact Int.tdiv_eq_ediv this (by positivity)

theorem floatToInt_nonpos (v : ℚ) (h : v ≤ 0) : floatToInt v = ⌈v⌉ := by
  have h1 : floatToInt v = - floatToInt (-v) := by
    unfold floatToInt
    simp
  rw [h1, floatToInt_nonneg (-v) (by linarith), Int.floor_neg, neg_neg]

example : floatToInt (43/4) = 10 := by
  rw [floatToInt_nonneg _ (by norm_num), Int.floor_eq_iff]; norm_num

theorem simulationStep_defined (fadd : FloatValue → ℚ → FloatValue) (params : Parameters) (s : Clock)
    (h : s.evalStep < INT_MAX) :
    simulationStep fadd params s =
      if ((intToFloat (s.evalStep + 1) : Int) : ℚ) = params "EvalSteps" then
        StepResult.exited ⟨s.evalStep + 1, fadd s.evalTime (params "DT")⟩
          ([Effect.takeStep s.evalStep (params "DT"), Effect.spaceCollide,
            Effect.worldStep (params "DT"), Effect.jointGroupEmpty]
            ++ endSimulation (s.evalStep + 1))
      else
        StepResult.running ⟨s.evalStep + 1, fadd s.evalTime (params "DT")⟩
          [Effect.takeStep s.evalStep (params "DT"), Effect.spaceCollide,
            Effect.worldStep (params "DT"), Effect.jointGroupEmpty] := by
  unfold simulationStep
  simp only [ne_of_lt h, if_false]

theorem blindLoop_exits_at (fadd : FloatValue → ℚ → FloatValue) (params : Parameters) (M : Int)
    (hM : ((intToFloat M : Int) : ℚ) = params "EvalSteps") (hmax : M ≤ INT_MAX)
    (hbefore : ∀ k : Int, 0 < k → k < M → ((intToFloat k : Int) : ℚ) ≠ params "EvalSteps") :
    ∀ (d fuel calls : Nat) (s : Clock) (trace : List Effect),
      0 ≤ s.evalStep → s.evalStep + ((d + 1 : Nat) : Int) = M → d + 1 ≤ fuel →
      ∃ s1 mid, blindLoop fadd params fuel calls s trace =
          RunResult.exited (calls + d + 1) s1 (trace ++ mid ++ endSimulation M) ∧
        s1.evalStep = M ∧ resultChannel mid = [] := by
  intro d
  induction d with
  | zero =>
    intro fuel calls s trace h0 hs hf
    obtain ⟨f, rfl⟩ : ∃ f, fuel = f + 1 := ⟨fuel - 1, by omega⟩
    have hstep : s.evalStep + 1 = M := by
      simpa using hs
    have hlt : s.evalStep < INT_MAX := by omega
    unfold blindLoop
    rw [simulationStep_defined fadd params s hlt, hstep, if_pos hM]
    simp only
    exact ⟨⟨M, fadd s.evalTime (params "DT")⟩,
      [Effect.takeStep s.evalStep (params "DT"), Effect.spaceCollide,
        Effect.worldStep (params "DT"), Effect.jointGroupEmpty],
      by simp only [List.append_assoc, Nat.add_zero], rfl, rfl⟩
  | succ d ih =>
    intro fuel calls s trace h0 hs hf
    obtain ⟨f, rfl⟩ : ∃ f, fuel = f + 1 := ⟨fuel - 1, by omega⟩
    have hs1 : s.evalStep + 1 + ((d + 1 : Nat) : Int) = M := by
      push_cast at hs ⊢
      omega
    have hlt : s.evalStep < INT_MAX := by
      push_cast at hs
      omega
    have hne : ¬ (((intToFloat (s.evalStep + 1) : Int) : ℚ) = params "EvalSteps") :=
      hbefore (s.evalStep + 1) (by omega) (by push_cast at hs; omega)
    unfold blindLoop
    rw [simulationStep_defined fadd params s hlt, if_neg hne]
    simp only
    obtain ⟨s1, mid, hrun, hev, hch⟩ := ih f (calls + 1)
      ⟨s.evalStep + 1, fadd s.evalTime (params "DT")⟩
      (trace ++ [Effect.takeStep s.evalStep (params "DT"), Effect.spaceCollide,
            Effect.worldStep (params "DT"), Effect.jointGroupEmpty])
      (by show 0 ≤ s.evalStep + 1; omega) hs1 (by omega)
    refine ⟨s1, [Effect.takeStep s.evalStep (params "DT"), Effect.spaceCollide,
            Effect.worldStep (params "DT"), Effect.jointGroupEmpty] ++ mid, ?_, hev, ?_⟩
    · rw [hrun]
      simp only [List.append_assoc]
      congr 1
      omega
    · rw [resultChannel_append, hch]
      rfl

theorem readLoop_channel (rd : PythonReader) :
    ∀ (n : Nat) (stream : List String), stream.length ≤ n →
      ∀ (st : Ingest) (trace : List Effect) (st1 : Ingest) (t : List Effect)
        (rest : List String),
        readLoop rd st trace stream = ReadResult.finished st1 t rest →
        resultChannel t = resultChannel trace := by
  intro n
  induction n with
  | zero =>
    intro stream hlen st trace st1 t rest h
    have : stream = [] := List.length_eq_zero.mp (by omega)
    subst this
    rw [readLoop] at h
    cases h
  | succ n ih =>
    intro stream hlen st trace st1 t rest h
    cases stream with
    | nil =>
      rw [readLoop] at h
      cases h
    | cons tag tail =>
      have hl : tail.length ≤ n := by
        simp only [List.length_cons] at hlen
        omega
      rw [readLoop] at h
      split_ifs at h with hd hp he ha hc
      · cases h
        rw [resultChannel_append]
        simp [resultChannel]
      · split at h
        · rename_i st2 t2 rest2 heq
          have hlen2 : rest2.length ≤ n := by
            cases tail with
            | nil => simp [readParameterFromPython] at heq
            | cons a l =>
              cases l with
              | nil => simp [readParameterFromPython] at heq
              | cons b l2 =>
                simp only [readParameterFromPython, Option.some.injEq, Prod.mk.injEq] at heq
                obtain ⟨_, _, h3⟩ := heq
                subst h3
                simp only [List.length_cons] at hl
                omega
          have ht2 : resultChannel t2 = [] := by
            cases tail with
            | nil => simp [readParameterFromPython] at heq
            | cons a l =>
              cases l with
              | nil => simp [readParameterFromPython] at heq
              | cons b l2 =>
                simp only [readParameterFromPython, Option.some.injEq, Prod.mk.injEq] at heq
                obtain ⟨_, h2, _⟩ := heq
                subst h2
                rfl
          rw [ih rest2 hlen2 _ _ _ _ _ h, resultChannel_append, ht2, List.append_nil]
        · cases h
      · have hlen2 : (tail.drop (rd.entityTokens tail)).length ≤ n := by
          have := List.length_drop (rd.entityTokens tail) tail
          omega
        rw [ih _ hlen2 _ _ _ _ _ h, resultChannel_append]
        simp [resultChannel]
      · have hlen2 : (tail.drop (rd.addTokens tail)).length ≤ n := by
          have := List.length_drop (rd.addTokens tail) tail
          omega
        rw [ih _ hlen2 _ _ _ _ _ h, resultChannel_append]
        simp [resultChannel]
      · split at h
        · rename_i st2 t2 rest2 heq
          have hlen2 : rest2.length ≤ n := by
            cases tail with
            | nil => simp [readCollisionRecord] at heq
            | cons a l =>
              cases l with
              | nil => simp [readCollisionRecord] at heq
              | cons b l2 =>
                simp only [readCollisionRecord, Option.some.injEq, Prod.mk.injEq] at heq
                obtain ⟨_, _, h3⟩ := heq
                subst h3
                simp only [List.length_cons] at hl
                omega
          have ht2 : resultChannel t2 = [] := by
            cases tail with
            | nil => simp [readCollisionRecord] at heq
            | cons a l =>
              cases l with
              | nil => simp [readCollisionRecord] at heq
              | cons b l2 =>
                simp only [readCollisionRecord, Option.some.injEq, Prod.mk.injEq] at heq
                obtain ⟨_, h2, _⟩ := heq
                subst h2
                rfl
          rw [ih rest2 hlen2 _ _ _ _ _ h, resultChannel_append, ht2, List.append_nil]
        · cases h

/-! ## The headless run -/

theorem resultChannel_createEnvironment (params : Parameters) :
    resultChannel (createEnvironment params) = [] := rfl

theorem blindLoop_never_exits (fadd : FloatValue → ℚ → FloatValue) (params : Parameters)
    (hN : params "EvalSteps" = 0) :
    ∀ (fuel calls : Nat) (s : Clock) (trace : List Effect), 0 ≤ s.evalStep →
      ∀ (c : Nat) (s1 : Clock) (t : List Effect),
        blindLoop fadd params fuel calls s trace ≠ RunResult.exited c s1 t := by
  intro fuel
  induction fuel with
  | zero =>
    intro calls s trace _ c s1 t h
    simp [blindLoop] at h
  | succ f ih =>
    intro calls s trace h0 c s1 t h
    have hne : ¬ (((intToFloat (s.evalStep + 1) : Int) : ℚ) = params "EvalSteps") := by
      rw [hN]
      intro hz
      have hz1 : intToFloat (s.evalStep + 1) = 0 := by exact_mod_cast hz
      exact intToFloat_ne_zero (s.evalStep + 1) (by omega) hz1
    unfold blindLoop at h
    unfold simulationStep at h
    by_cases hmax : s.evalStep = INT_MAX
    · simp only [hmax, if_true] at h
      cases h
    · simp only [hmax, if_false, hne] at h
      exact ih (calls + 1) _ _ (by show 0 ≤ s.evalStep + 1; omega) c s1 t h

theorem mainBlind_exits_at (rd : PythonReader) (fadd : FloatValue → ℚ → FloatValue) (stream : List String)
    (st : Ingest) (t : List Effect) (rest : List String) (M : Int)
    (hread : readFromPython rd initialIngest stream = ReadResult.finished st t rest)
    (hM : ((intToFloat M : Int) : ℚ) = st.parameters "EvalSteps")
    (h1 : 1 ≤ M) (hmax : M ≤ INT_MAX)
    (hbefore : ∀ k : Int, 0 < k → k < M →
      ((intToFloat k : Int) : ℚ) ≠ st.parameters "EvalSteps")
    (fuel : Nat) (hfuel : M.toNat ≤ fuel) :
    ∃ s before,
      mainBlind rd fadd stream fuel =
        RunResult.exited M.toNat s (before ++ endSimulation M) ∧
      s.evalStep = M ∧
      resultChannel before = [] ∧
      (resultChannel (before ++ endSimulation M)).head? = some (ResultToken.int M) := by
  have ht : resultChannel t = [] :=
    readLoop_channel rd stream.length stream (le_refl _) initialIngest [] st t rest hread
  obtain ⟨d, hd⟩ : ∃ d : Nat, M.toNat = d + 1 := ⟨M.toNat - 1, by omega⟩
  obtain ⟨s1, mid, hrun, hev, hch⟩ := blindLoop_exits_at fadd st.parameters M hM hmax hbefore
    d fuel 0 ⟨0, FloatValue.finite 0⟩ ([Effect.initializeODE, Effect.initializeEnvironment] ++ t
      ++ createEnvironment st.parameters
      ++ [Effect.worldSetAutoDisableFlag, Effect.cerr "Simulation Starting"])
    (le_refl _) (by show (0 : Int) + ((d + 1 : Nat) : Int) = M; omega) (by omega)
  have hbefore : resultChannel ([Effect.initializeODE, Effect.initializeEnvironment] ++ t
      ++ createEnvironment st.parameters
      ++ [Effect.worldSetAutoDisableFlag, Effect.cerr "Simulation Starting"] ++ mid) = [] := by
    simp only [resultChannel_append, ht, hch, resultChannel_createEnvironment]
    rfl
  refine ⟨s1, _, ?_, hev, hbefore, ?_⟩
  · unfold mainBlind
    rw [hread]
    simp only
    rw [hrun, hd]
    simp
  · rw [resultChannel_append, hbefore]
    rfl

/-- C5 (amended): in headless mode, when ingest returns with the parameter
`EvalSteps` holding an integer `N` with `1 ≤ N ≤ 2^24`, the run makes exactly
`N` calls of `simulationStep` and then exits inside `endSimulation`, which is
the end of the trace; `evalStep` is `N`, nothing is written to the result
channel before, and its first token is `N`. -/
theorem mainBlind_step_budget (rd : PythonReader) (fadd : FloatValue → ℚ → FloatValue) (stream : List String)
    (st : Ingest) (t : List Effect) (rest : List String) (N : Int)
    (hread : readFromPython rd initialIngest stream = ReadResult.finished st t rest)
    (hN : st.parameters "EvalSteps" = (N : ℚ)) (h1 : 1 ≤ N) (h2 : N ≤ 2 ^ 24)
    (fuel : Nat) (hfuel : N.toNat ≤ fuel) :
    ∃ s before,
      mainBlind rd fadd stream fuel =
        RunResult.exited N.toNat s (before ++ endSimulation N) ∧
      s.evalStep = N ∧
      resultChannel before = [] ∧
      (resultChannel (before ++ endSimulation N)).head? = some (ResultToken.int N) := by
  have hexact : ∀ k : Int, 0 < k → k ≤ N → intToFloat k = k := by
    intro k hk0 hkN
    exact intToFloat_exact k (by norm_num at h2 ⊢; omega)
  refine mainBlind_exits_at rd fadd stream st t rest N hread ?_ h1 ?_ ?_ fuel hfuel
  · rw [hexact N (by omega) (le_refl _), hN]
  · unfold INT_MAX
    norm_num at h2 ⊢
    omega
  · intro k hk0 hkN
    rw [hexact k hk0 (le_of_lt hkN), hN]
    intro h
    have := Int.cast_injective h
    omega

/-- Witness of C5 (amended): with no `Parameter` record, `EvalSteps` has its
initial value 200. -/
theorem mainBlind_step_budget_witness :
    ∃ s before,
      mainBlind sampleReader floatAdd ["Done"] 200 =
        RunResult.exited (200 : Int).toNat s (before ++ endSimulation 200) ∧
      s.evalStep = 200 ∧
      resultChannel before = [] ∧
      (resultChannel (before ++ endSimulation 200)).head? = some (ResultToken.int 200) :=
  mainBlind_step_budget sampleReader floatAdd ["Done"] initialIngest
    [Effect.cerr "Finished Reading In From Python"] [] 200
    (by rw [readFromPython, readLoop]; simp)
    (by simp [initialIngest, initializeParameters, Parameters.set])
    (by decide) (by norm_num) 200 (by decide)

theorem log2_eq_of_bounds (n k : Nat) (h1 : 2 ^ k ≤ n) (h2 : n < 2 ^ (k + 1)) :
    Nat.log2 n = k := by
  have hn : n ≠ 0 := by
    have : 0 < 2 ^ k := by positivity
    omega
  have a := (Nat.le_log2 hn).mpr h1
  have b := (Nat.log2_lt hn).mpr h2
  omega

theorem intToFloat_16777217 : intToFloat 16777217 = 16777216 := by
  have hl : Nat.log2 16777217 = 24 := log2_eq_of_bounds _ _ (by norm_num) (by norm_num)
  have hs : Int.sign 16777217 = 1 := Int.sign_eq_one_of_pos (by norm_num)
  norm_num [intToFloat, hl, hs]

theorem intToFloat_16777218 : intToFloat 16777218 = 16777218 := by
  have hl : Nat.log2 16777218 = 24 := log2_eq_of_bounds _ _ (by norm_num) (by norm_num)
  have hs : Int.sign 16777218 = 1 := Int.sign_eq_one_of_pos (by norm_num)
  norm_num [intToFloat, hl, hs]

theorem intToFloat_16777219 : intToFloat 16777219 = 16777220 := by
  have hl : Nat.log2 16777219 = 24 := log2_eq_of_bounds _ _ (by norm_num) (by norm_num)
  have hs : Int.sign 16777219 = 1 := Int.sign_eq_one_of_pos (by norm_num)
  norm_num [intToFloat, hl, hs]

theorem readFromPython_EvalSteps (tok : String) :
    readFromPython sampleReader initialIngest ["Parameter", "EvalSteps", tok, "Done"] =
      ReadResult.finished
        { initialIngest with
          parameters := initialIngest.parameters.set "EvalSteps" (decodeNat tok : ℚ) }
        [Effect.cerrSetTo "EvalSteps" (decodeNat tok : ℚ),
          Effect.cerr "Finished Reading In From Python"] [] := by
  rw [readFromPython, readLoop]
  simp only [readParameterFromPython, sampleReader]
  simp
  rw [readLoop]
  simp

/-- Counterexample to C5, at two values of `EvalSteps`.  With the record
`Parameter EvalSteps 0` the headless run never exits, whatever the fuel; in
particular it does not exit after 0 calls with 0 on the result channel.  With
the record `Parameter EvalSteps 16777220` the run exits after 16777219 calls
of `simulationStep` and the first token of the result channel is 16777219:
converted to `float`, 16777219 is 16777220. -/
theorem mainBlind_EvalSteps_out_of_range :
    (¬ ∃ fuel calls s trace,
      mainBlind sampleReader floatAdd ["Parameter", "EvalSteps", "0", "Done"] fuel =
        RunResult.exited calls s trace) ∧
    ∃ s before,
      mainBlind sampleReader floatAdd ["Parameter", "EvalSteps", "16777220", "Done"]
          16777219 =
        RunResult.exited 16777219 s (before ++ endSimulation 16777219) ∧
      (resultChannel (before ++ endSimulation 16777219)).head? =
        some (ResultToken.int 16777219) := by
  constructor
  · rintro ⟨fuel, calls, s, trace, h⟩
    have hdec : decodeNat "0" = 0 := by decide
    have hread := readFromPython_EvalSteps "0"
    rw [hdec] at hread
    unfold mainBlind at h
    rw [hread] at h
    exact blindLoop_never_exits floatAdd _ (by simp [Parameters.set]) fuel 0 ⟨0, FloatValue.finite 0⟩ _
      (le_refl _) calls s trace h
  · have hdec : decodeNat "16777220" = 16777220 := by decide
    have hread := readFromPython_EvalSteps "16777220"
    rw [hdec] at hread
    have hE : (initialIngest.parameters.set "EvalSteps" ((16777220 : Nat) : ℚ)) "EvalSteps" =
        16777220 := by
      simp [Parameters.set]
    obtain ⟨s, before, hrun, _, _, hch⟩ := mainBlind_exits_at sampleReader floatAdd
      ["Parameter", "EvalSteps", "16777220", "Done"] _ _ _ 16777219 hread
      (by rw [intToFloat_16777219]; simp only [hE]; norm_num)
      (by norm_num) (by unfold INT_MAX; norm_num)
      (by
        intro k hk0 hk
        simp only [hE]
        intro h
        have h2 : intToFloat k = 16777220 := by exact_mod_cast h
        by_cases hsmall : k ≤ 16777216
        · rw [intToFloat_exact k (by norm_num; omega)] at h2
          omega
        · have hk2 : k = 16777217 ∨ k = 16777218 := by omega
          rcases hk2 with rfl | rfl
          · rw [intToFloat_16777217] at h2
            omega
          · rw [intToFloat_16777218] at h2
            omega)
      16777219 (by decide)
    exact ⟨s, before, hrun, hch⟩

/-! ## One step, ingest errors and parameter reads -/

theorem log2Floor_eq (a : ℚ) (n d ln ld : Nat) (hn : a.num = (n : Int)) (hd : a.den = d)
    (hln : Nat.log2 n = ln) (hld : Nat.log2 d = ld) :
    log2Floor a =
      if a < (2 : ℚ) ^ ((ln : Int) - (ld : Int)) then (ln : Int) - (ld : Int) - 1
      else (ln : Int) - (ld : Int) := by
  unfold log2Floor
  simp only [hn, hd, Int.natAbs_ofNat, hln, hld]

theorem floatRound_eval (x : ℚ) (e f m : Int) (hx : 0 < x) (hlog : log2Floor x = e)
    (he : -126 ≤ e) (hf : ⌊x / (2 : ℚ) ^ (e - 23)⌋ = f)
    (hm : (if 1 / 2 < x / (2 : ℚ) ^ (e - 23) - (f : ℚ) ∨
        (x / (2 : ℚ) ^ (e - 23) - (f : ℚ) = 1 / 2 ∧ f % 2 = 1) then f + 1 else f) = m)
    (hfin : (m : ℚ) * (2 : ℚ) ^ (e - 23) < 2 ^ 128) :
    floatRound x = FloatValue.finite ((m : ℚ) * (2 : ℚ) ^ (e - 23)) := by
  unfold floatRound
  have habs : |x| = x := abs_of_pos hx
  have hmax : max e (-126) = e := max_eq_left he
  simp only [habs, hlog, hmax, hf, hm, if_neg (ne_of_gt hx), if_neg (not_le.mpr hfin),
    if_neg (not_lt.mpr (le_of_lt hx))]

theorem floatRound_literal_0_01 : floatRound (1 / 100) = FloatValue.finite float_0_01 := by
  have hl1 : Nat.log2 1 = 0 := log2_eq_of_bounds _ _ (by norm_num) (by norm_num)
  have hl2 : Nat.log2 100 = 6 := log2_eq_of_bounds _ _ (by norm_num) (by norm_num)
  have hlog : log2Floor (1 / 100 : ℚ) = -7 := by
    rw [log2Floor_eq (1 / 100) 1 100 0 6 (by norm_num) (by norm_num) hl1 hl2]
    norm_num
  have hq : (1 / 100 : ℚ) / (2 : ℚ) ^ ((-7 : Int) - 23) = 268435456 / 25 := by norm_num
  have hf : ⌊(1 / 100 : ℚ) / (2 : ℚ) ^ ((-7 : Int) - 23)⌋ = 10737418 := by
    rw [hq, Int.floor_eq_iff]
    norm_num
  rw [floatRound_eval (1 / 100) (-7) 10737418 10737418 (by norm_num) hlog (by norm_num) hf
    (by rw [hq]; norm_num) (by norm_num)]
  unfold float_0_01
  norm_num

theorem floatRound_literal_9_8 : floatRound (98 / 10) = FloatValue.finite float_9_8 := by
  have hl1 : Nat.log2 49 = 5 := log2_eq_of_bounds _ _ (by norm_num) (by norm_num)
  have hl2 : Nat.log2 5 = 2 := log2_eq_of_bounds _ _ (by norm_num) (by norm_num)
  have hlog : log2Floor (98 / 10 : ℚ) = 3 := by
    rw [log2Floor_eq (98 / 10) 49 5 5 2 (by norm_num) (by norm_num) hl1 hl2]
    norm_num
  have hq : (98 / 10 : ℚ) / (2 : ℚ) ^ ((3 : Int) - 23) = 51380224 / 5 := by norm_num
  have hf : ⌊(98 / 10 : ℚ) / (2 : ℚ) ^ ((3 : Int) - 23)⌋ = 10276044 := by
    rw [hq, Int.floor_eq_iff]
    norm_num
  rw [floatRound_eval (98 / 10) 3 10276044 10276045 (by norm_num) hlog (by norm_num) hf
    (by rw [hq]; norm_num) (by norm_num)]
  unfold float_9_8
  norm_num

theorem floatAdd_first_step :
    floatAdd (FloatValue.finite 0) float_0_01 = FloatValue.finite float_0_01 := by
  have hl1 : Nat.log2 5368709 = 22 := log2_eq_of_bounds _ _ (by norm_num) (by norm_num)
  have hl2 : Nat.log2 536870912 = 29 := log2_eq_of_bounds _ _ (by norm_num) (by norm_num)
  have hlog : log2Floor (5368709 / 536870912 : ℚ) = -7 := by
    rw [log2Floor_eq (5368709 / 536870912) 5368709 536870912 22 29 (by norm_num)
      (by norm_num) hl1 hl2]
    norm_num
  have hq : (5368709 / 536870912 : ℚ) / (2 : ℚ) ^ ((-7 : Int) - 23) = 10737418 := by norm_num
  have hf : ⌊(5368709 / 536870912 : ℚ) / (2 : ℚ) ^ ((-7 : Int) - 23)⌋ = 10737418 := by
    rw [hq]
    exact Int.floor_intCast 10737418
  show floatRound (0 + float_0_01) = _
  unfold float_0_01
  rw [zero_add, floatRound_eval (5368709 / 536870912) (-7) 10737418 10737418 (by norm_num)
    hlog (by norm_num) hf (by rw [hq]; norm_num) (by norm_num)]
  norm_num

theorem floatAdd_fifth_step :
    floatAdd (FloatValue.finite (4 * float_0_01)) float_0_01 =
      FloatValue.finite (3355443 / 67108864) := by
  have hsum : (4 * float_0_01 + float_0_01 : ℚ) = 26843545 / 536870912 := by
    unfold float_0_01
    norm_num
  have hnum : (26843545 / 536870912 : ℚ).num = ((26843545 : Nat) : Int) := by norm_num
  have hden : (26843545 / 536870912 : ℚ).den = 536870912 := by norm_num
  have hl1 : Nat.log2 26843545 = 24 := log2_eq_of_bounds _ _ (by norm_num) (by norm_num)
  have hl2 : Nat.log2 536870912 = 29 := log2_eq_of_bounds _ _ (by norm_num) (by norm_num)
  have habs : |(26843545 / 536870912 : ℚ)| = 26843545 / 536870912 :=
    abs_of_pos (by norm_num)
  have hlog : log2Floor (26843545 / 536870912 : ℚ) = -5 := by
    rw [log2Floor_eq _ _ _ _ _ hnum hden hl1 hl2]
    norm_num
  have hn : (26843545 / 536870912 : ℚ) / (2 : ℚ) ^ (-28 : Int) = 26843545 / 2 := by
    norm_num
  have hfloor : ⌊(26843545 / 2 : ℚ)⌋ = 13421772 := by
    rw [Int.floor_eq_iff]
    norm_num
  have h28 : max (-5 : Int) (-126) - 23 = -28 := by norm_num
  show floatRound (4 * float_0_01 + float_0_01) = _
  rw [hsum]
  unfold floatRound
  simp only [habs, hlog, h28, hn, hfloor]
  norm_num

/-- C7 (amended): a call of `simulationStep` in which the increment of
`evalStep` does not overflow performs, in this order: `takeStep` with the old
`evalStep` and `DT`, the broad phase of the top space, the world step with
`DT`, the emptying of the contact group; then `evalStep` is advanced by 1 and
`evalTime` becomes the `float` sum of `evalTime` and `DT`; and `endSimulation`
(writing the new `evalStep`) follows, and the process exits, if and only if the
new `evalStep`, converted to `float`, is equal to `EvalSteps`; while the
magnitude of the new `evalStep` is at most `2^24` that is equality of the two
numbers. -/
theorem simulationStep_order (params : Parameters) (s : Clock)
    (h : s.evalStep < INT_MAX) :
    ∃ s1 tail,
      s1.evalStep = s.evalStep + 1 ∧
      s1.evalTime = floatAdd s.evalTime (params "DT") ∧
      (simulationStep floatAdd params s = StepResult.running s1
          ([Effect.takeStep s.evalStep (params "DT"), Effect.spaceCollide,
            Effect.worldStep (params "DT"), Effect.jointGroupEmpty] ++ tail) ∨
        simulationStep floatAdd params s = StepResult.exited s1
          ([Effect.takeStep s.evalStep (params "DT"), Effect.spaceCollide,
            Effect.worldStep (params "DT"), Effect.jointGroupEmpty] ++ tail)) ∧
      (tail = [] ∨ tail = endSimulation s1.evalStep) ∧
      (tail = endSimulation s1.evalStep ↔
        ((intToFloat s1.evalStep : Int) : ℚ) = params "EvalSteps") ∧
      ((∃ t, simulationStep floatAdd params s = StepResult.exited s1 t) ↔
        ((intToFloat s1.evalStep : Int) : ℚ) = params "EvalSteps") ∧
      (s1.evalStep.natAbs ≤ 2 ^ 24 →
        (tail = endSimulation s1.evalStep ↔ (s1.evalStep : ℚ) = params "EvalSteps")) := by
  have hstep := simulationStep_defined floatAdd params s h
  by_cases heq : ((intToFloat (s.evalStep + 1) : Int) : ℚ) = params "EvalSteps"
  · rw [if_pos heq] at hstep
    refine ⟨⟨s.evalStep + 1, floatAdd s.evalTime (params "DT")⟩,
      endSimulation (s.evalStep + 1),
      rfl, rfl, Or.inr hstep, Or.inr rfl, ⟨fun _ => heq, fun _ => rfl⟩,
      ⟨fun _ => heq, fun _ => ⟨_, hstep⟩⟩, ?_⟩
    intro hsmall
    rw [intToFloat_exact _ hsmall] at heq
    exact ⟨fun _ => heq, fun _ => rfl⟩
  · rw [if_neg heq] at hstep
    have hnil : ([] : List Effect) ≠ endSimulation (s.evalStep + 1) := by
      simp [endSimulation]
    refine ⟨⟨s.evalStep + 1, floatAdd s.evalTime (params "DT")⟩, [],
      rfl, rfl, Or.inl (by simpa using hstep), Or.inl rfl,
      ⟨fun hc => absurd hc hnil, fun hc => absurd hc heq⟩,
      ⟨?_, fun hc => absurd hc heq⟩, ?_⟩
    · rintro ⟨t, ht⟩
      rw [hstep] at ht
      cases ht
    · intro hsmall
      rw [intToFloat_exact _ hsmall] at heq
      exact ⟨fun hc => absurd hc hnil, fun hc => absurd hc heq⟩

/-- Counterexample to C7, in two steps.  With `EvalSteps = 16777220` the step
from `evalStep = 16777218` calls `endSimulation` although the new `evalStep`,
16777219, is not equal to `EvalSteps`.  Under the default parameters the fifth
step takes `evalTime` from four times the `float` 0.01 to 3355443/67108864,
an advance that is not `DT`. -/
theorem simulationStep_order_counterexample :
    (simulationStep floatAdd (defaultParameters.set "EvalSteps" 16777220)
        ⟨16777218, FloatValue.finite 0⟩ =
      StepResult.exited ⟨16777219, FloatValue.finite float_0_01⟩
        ([Effect.takeStep 16777218 float_0_01, Effect.spaceCollide,
          Effect.worldStep float_0_01, Effect.jointGroupEmpty] ++ endSimulation 16777219) ∧
      ((16777219 : Int) : ℚ) ≠ (defaultParameters.set "EvalSteps" 16777220) "EvalSteps") ∧
    (simulationStep floatAdd defaultParameters clockAfterFour =
      StepResult.running ⟨5, FloatValue.finite (3355443 / 67108864)⟩
        [Effect.takeStep 4 float_0_01, Effect.spaceCollide,
          Effect.worldStep float_0_01, Effect.jointGroupEmpty] ∧
      defaultParameters "DT" = float_0_01 ∧
      (3355443 / 67108864 : ℚ) - 4 * float_0_01 ≠ float_0_01) := by
  have hDT : defaultParameters "DT" = float_0_01 := by
    simp [defaultParameters, initializeParameters, Parameters.set]
  have hE : defaultParameters "EvalSteps" = 200 := by
    simp [defaultParameters, initializeParameters, Parameters.set]
  have hDT2 : (defaultParameters.set "EvalSteps" 16777220) "DT" = float_0_01 := by
    simp [defaultParameters, initializeParameters, Parameters.set]
  have hE2 : (defaultParameters.set "EvalSteps" 16777220) "EvalSteps" = 16777220 := by
    simp [Parameters.set]
  refine ⟨⟨?_, ?_⟩, ?_, hDT, ?_⟩
  · rw [simulationStep_defined _ _ _ (by unfold INT_MAX; norm_num)]
    have h19 : intToFloat ((16777218 : Int) + 1) = 16777220 := intToFloat_16777219
    simp only [hDT2, hE2, h19, floatAdd_first_step]
    norm_num
  · rw [hE2]
    norm_num
  · have h5 : intToFloat ((4 : Int) + 1) = 5 := intToFloat_exact 5 (by norm_num)
    rw [simulationStep_defined _ _ _ (by unfold INT_MAX clockAfterFour; norm_num)]
    simp only [clockAfterFour, hDT, hE, h5, floatAdd_fifth_step]
    norm_num
  · unfold float_0_01
    norm_num

/-- C10 (amended): every call of `simulationStep` starts with
`environment->takeStep`, then the broad phase, then the world step, then the
emptying of the contact group, in this order.  The effects that call
`Environment` (`takeStep`, and the broad phase through `nearCallback`) come
before the world step; after it the only call of `Environment` is
`writeToPython`, made by `endSimulation` on the step where the process
exits. -/
theorem simulationStep_environment_calls (fadd : FloatValue → ℚ → FloatValue)
    (params : Parameters) (s : Clock) :
    (simulationStep fadd params s).trace.take 4 =
      [Effect.takeStep s.evalStep (params "DT"), Effect.spaceCollide,
        Effect.worldStep (params "DT"), Effect.jointGroupEmpty] ∧
    ∀ (i : Nat) (e : Effect), (simulationStep fadd params s).trace[i]? = some e →
      e.callsEnvironment = true →
      i < 2 ∨ (e = Effect.writeToPython ∧
        ∃ s1 t, simulationStep fadd params s = StepResult.exited s1 t) := by
  unfold simulationStep
  by_cases hmax : s.evalStep = INT_MAX
  · simp only [hmax, if_true, StepResult.trace]
    refine ⟨rfl, ?_⟩
    intro i e hi he
    match i with
    | 0 | 1 => exact Or.inl (by omega)
    | 2 | 3 =>
      simp at hi
      subst hi
      simp [Effect.callsEnvironment] at he
    | n + 4 => simp at hi
  · simp only [hmax, if_false]
    split
    · simp only [StepResult.trace]
      refine ⟨rfl, ?_⟩
      intro i e hi he
      match i with
      | 0 | 1 => exact Or.inl (by omega)
      | 2 | 3 | 4 | 5 | 7 | 8 =>
        simp [endSimulation] at hi
        subst hi
        simp [Effect.callsEnvironment] at he
      | 6 =>
        simp [endSimulation] at hi
        subst hi
        exact Or.inr ⟨rfl, _, _, rfl⟩
      | n + 9 => simp [endSimulation] at hi
    · simp only [StepResult.trace]
      refine ⟨rfl, ?_⟩
      intro i e hi he
      match i with
      | 0 | 1 => exact Or.inl (by omega)
      | 2 | 3 =>
        simp at hi
        subst hi
        simp [Effect.callsEnvironment] at he
      | n + 4 => simp at hi

/-- Counterexample to C10: the first step under the default parameters calls
`takeStep` and runs the broad phase before the world step, and after the world
step it makes no call of `Environment`. -/
theorem simulationStep_no_call_after_worldStep :
    simulationStep floatAdd defaultParameters ⟨0, FloatValue.finite 0⟩ =
      StepResult.running ⟨1, FloatValue.finite float_0_01⟩
        [Effect.takeStep 0 float_0_01, Effect.spaceCollide, Effect.worldStep float_0_01,
          Effect.jointGroupEmpty] ∧
    ¬ ∃ (i j : Nat) (e : Effect), i < j ∧
      (simulationStep floatAdd defaultParameters ⟨0, FloatValue.finite 0⟩).trace[i]? =
        some (Effect.worldStep float_0_01) ∧
      (simulationStep floatAdd defaultParameters ⟨0, FloatValue.finite 0⟩).trace[j]? =
        some e ∧
      e.callsEnvironment = true := by
  have hDT : defaultParameters "DT" = float_0_01 := by
    simp [defaultParameters, initializeParameters, Parameters.set]
  have hE : defaultParameters "EvalSteps" = 200 := by
    simp [defaultParameters, initializeParameters, Parameters.set]
  have hrun : simulationStep floatAdd defaultParameters ⟨0, FloatValue.finite 0⟩ =
      StepResult.running ⟨1, FloatValue.finite float_0_01⟩
        [Effect.takeStep 0 float_0_01, Effect.spaceCollide, Effect.worldStep float_0_01,
          Effect.jointGroupEmpty] := by
    have h1 : intToFloat ((0 : Int) + 1) = 1 := intToFloat_exact 1 (by norm_num)
    rw [simulationStep_defined _ _ _ (by unfold INT_MAX; norm_num)]
    simp only [hDT, hE, h1, floatAdd_first_step]
    norm_num
  refine ⟨hrun, ?_⟩
  rw [hrun]
  rintro ⟨i, j, e, hij, hi, hj, he⟩
  simp only [StepResult.trace] at hi hj
  match i, j with
  | 0, _ => simp [float_0_01] at hi
  | 1, _ => simp at hi
  | 2, 3 =>
    simp at hj
    subst hj
    simp [Effect.callsEnvironment] at he
  | 2, 0 | 2, 1 | 2, 2 => omega
  | 2, n + 4 => simp at hj
  | 3, _ => simp at hi
  | n + 4, _ => simp at hi

theorem readLoop_invalid (rd : PythonReader) (st : Ingest) (trace : List Effect)
    (tag : String) (rest : List String)
    (h : tag ∉ ["Done", "Parameter", "Entity", "Add", "AssignCollision"]) :
    readLoop rd st trace (tag :: rest) =
      ReadResult.exited
        (trace ++ [Effect.cerr ("INVALID READ IN " ++ tag), Effect.exit 0]) rest := by
  simp only [List.mem_cons, List.mem_singleton, List.not_mem_nil, or_false, not_or] at h
  obtain ⟨h1, h2, h3, h4, h5⟩ := h
  rw [readLoop]
  simp only [h1, h2, h3, h4, h5, if_false]

/-- C6: on the stream `Sensor 0 Done`, whose first tag is not one of the five
known tags, `readFromPython` writes the diagnostic naming the tag and calls
`exit(0)`, leaving the rest of the stream unread: the exit status is 0. -/
theorem readFromPython_invalid_tag :
    readFromPython sampleReader initialIngest ["Sensor", "0", "Done"] =
      ReadResult.exited [Effect.cerr "INVALID READ IN Sensor", Effect.exit 0] ["0", "Done"] ∧
    exitStatus [Effect.cerr "INVALID READ IN Sensor", Effect.exit 0] = some 0 := by
  refine ⟨?_, rfl⟩
  rw [readFromPython, readLoop_invalid sampleReader initialIngest [] "Sensor" ["0", "Done"]
    (by decide)]
  rfl

theorem nearCallback_limit (params : Parameters) (m : CollisionMap) (env : Environment)
    (pe : PhysicsEngine) (o1 o2 a b : Geom) (N : Int)
    (h : Event.collide a b N ∈ nearCallback params m env pe o1 o2) :
    N = floatToInt (params "nContacts") ∨ (N = 1 ∧ a.cls = GeomClass.ray) := by
  have hray : ∀ r o : Geom, r.cls = GeomClass.ray →
      Event.collide a b N ∈ handleRayCollision pe r o → N = 1 ∧ a.cls = GeomClass.ray := by
    intro r o hr hmem
    unfold handleRayCollision at hmem
    rcases List.mem_cons.mp hmem with heq | hmem
    · injection heq with h1 h2 h3
      subst h1
      exact ⟨h3, hr⟩
    · split at hmem
      · simp at hmem
      · split at hmem <;> simp at hmem
  have hgen : Event.collide a b N ∈ generateContacts params pe o1 o2 →
      N = floatToInt (params "nContacts") := by
    intro hmem
    unfold generateContacts at hmem
    rcases List.mem_cons.mp hmem with heq | hmem
    · injection heq with h1 h2 h3
    · simp at hmem
  unfold nearCallback at h
  split at h
  · by_cases h1 : dGeomIsSpace o1 = true <;> by_cases h2 : dGeomIsSpace o2 = true <;>
      simp [h1, h2] at h
  · split at h
    · rename_i hr
      exact Or.inr (hray _ _ hr h)
    · split at h
      · rename_i hr
        exact Or.inr (hray _ _ hr h)
      · split at h
        · exact Or.inl (hgen h)
        · simp only at h
          split at h
          · simp at h
          · split at h
            · exact Or.inl (hgen h)
            · simp at h

theorem contactLimit_of_range (params : Parameters) (hv1 : 1 ≤ params "nContacts")
    (hv2 : params "nContacts" < 2 ^ 31) :
    contactLimit params = some ⌊params "nContacts"⌋ := by
  have hfl : floatToInt (params "nContacts") = ⌊params "nContacts"⌋ :=
    floatToInt_nonneg _ (by linarith)
  have h1 : (1 : Int) ≤ ⌊params "nContacts"⌋ := Int.le_floor.mpr (by exact_mod_cast hv1)
  have h2 : ⌊params "nContacts"⌋ < (2 : Int) ^ 31 :=
    Int.floor_lt.mpr (by exact_mod_cast hv2)
  unfold contactLimit
  simp only [hfl]
  have hrange : INT_MIN ≤ ⌊params "nContacts"⌋ ∧ ⌊params "nContacts"⌋ ≤ INT_MAX := by
    unfold INT_MIN INT_MAX
    constructor <;> omega
  rw [if_pos hrange, if_pos h1]

theorem contactLimit_undefined (params : Parameters)
    (h : params "nContacts" < 1 ∨ 2 ^ 31 ≤ params "nContacts") :
    contactLimit params = none := by
  unfold contactLimit
  rcases h with h | h
  · have hN : ¬ (1 ≤ floatToInt (params "nContacts")) := by
      by_cases h0 : 0 ≤ params "nContacts"
      · rw [floatToInt_nonneg _ h0]
        have : ⌊params "nContacts"⌋ < 1 := Int.floor_lt.mpr (by exact_mod_cast h)
        omega
      · rw [floatToInt_nonpos _ (by linarith)]
        have : ⌈params "nContacts"⌉ ≤ 0 := Int.ceil_le.mpr (by push_cast; linarith)
        omega
    simp only [hN, if_false, ite_self]
  · have hN : ¬ (INT_MIN ≤ floatToInt (params "nContacts") ∧
        floatToInt (params "nContacts") ≤ INT_MAX) := by
      rw [floatToInt_nonneg _ (le_trans (by norm_num) h)]
      have : (2 : Int) ^ 31 ≤ ⌊params "nContacts"⌋ := Int.le_floor.mpr (by exact_mod_cast h)
      unfold INT_MAX
      omega
    simp only [hN, if_false]

/-- C9 (amended): no rounding is applied to the two parameters.  For a stored
`nContacts` value `v` with `1 ≤ v < 2^31` the contact limit of lines 392-393
is defined and is `v` truncated toward zero, its floor, and every
narrow-phase request that `nearCallback` issues outside ray handling carries
that limit.  A call of `simulationStep` in which the increment does not
overflow exits if and only if the new `evalStep`, converted to `float`, is
equal to the stored `EvalSteps` itself; when the stored value is not an
integer the call returns. -/
theorem parameters_read_unrounded (fadd : FloatValue → ℚ → FloatValue) (params : Parameters)
    (m : CollisionMap) (env : Environment) (pe : PhysicsEngine) (o1 o2 : Geom) (s : Clock)
    (hv1 : 1 ≤ params "nContacts") (hv2 : params "nContacts" < 2 ^ 31)
    (h : s.evalStep < INT_MAX) :
    contactLimit params = some ⌊params "nContacts"⌋ ∧
    (∀ (a b : Geom) (N : Int), Event.collide a b N ∈ nearCallback params m env pe o1 o2 →
      a.cls ≠ GeomClass.ray → N = ⌊params "nContacts"⌋) ∧
    ((∃ s1 t, simulationStep fadd params s = StepResult.exited s1 t) ↔
      ((intToFloat (s.evalStep + 1) : Int) : ℚ) = params "EvalSteps") ∧
    ((∀ n : Int, (n : ℚ) ≠ params "EvalSteps") →
      ∃ s1 t, simulationStep fadd params s = StepResult.running s1 t) := by
  have hstep := simulationStep_defined fadd params s h
  have hfl : floatToInt (params "nContacts") = ⌊params "nContacts"⌋ :=
    floatToInt_nonneg _ (by linarith)
  refine ⟨contactLimit_of_range params hv1 hv2, ?_, ?_, ?_⟩
  · intro a b N hmem hnr
    rcases nearCallback_limit params m env pe o1 o2 a b N hmem with hN | ⟨_, hr⟩
    · rw [hN, hfl]
    · exact absurd hr hnr
  · by_cases heq : ((intToFloat (s.evalStep + 1) : Int) : ℚ) = params "EvalSteps"
    · rw [if_pos heq] at hstep
      exact ⟨fun _ => heq, fun _ => ⟨_, _, hstep⟩⟩
    · rw [if_neg heq] at hstep
      refine ⟨?_, fun hc => absurd hc heq⟩
      rintro ⟨s1, t, ht⟩
      rw [hstep] at ht
      cases ht
  · intro hnon
    rw [if_neg (hnon _)] at hstep
    exact ⟨_, _, hstep⟩

theorem fractionalParameters_values :
    fractionalParameters "nContacts" = 43 / 4 ∧ fractionalParameters "EvalSteps" = 11 / 4 ∧
      fractionalParameters "DT" = float_0_01 := by
  simp [fractionalParameters, defaultParameters, initializeParameters, Parameters.set]

/-- Counterexample to C9: with `nContacts` stored as 10.75 the contact limit
used by `nearCallback` is 10, while 10.75 rounds to 11; with `EvalSteps`
stored as 2.75, which rounds to 3, the step that brings `evalStep` to 3
returns instead of ending the simulation. -/
theorem parameters_not_rounded :
    (nearCallback fractionalParameters [] sampleEnvironment sampleEngine
      sampleGround sampleBoxA).head? = some (Event.collide sampleGround sampleBoxA 10) ∧
    contactLimit fractionalParameters = some 10 ∧
    round (fractionalParameters "nContacts") = 11 ∧
    simulationStep floatAdd fractionalParameters ⟨2, FloatValue.finite 0⟩ =
      StepResult.running ⟨3, FloatValue.finite float_0_01⟩
        [Effect.takeStep 2 float_0_01, Effect.spaceCollide, Effect.worldStep float_0_01,
          Effect.jointGroupEmpty] ∧
    round (fractionalParameters "EvalSteps") = 3 := by
  obtain ⟨hp, hE, hDT⟩ := fractionalParameters_values
  have hN : floatToInt (43 / 4) = 10 := by
    rw [floatToInt_nonneg _ (by norm_num), Int.floor_eq_iff]
    norm_num
  refine ⟨?_, ?_, ?_, ?_, ?_⟩
  · simp [nearCallback, dGeomIsSpace, sampleGround, sampleBoxA, generateContacts, hp, hN]
  · unfold contactLimit
    simp only [hp, hN]
    unfold INT_MIN INT_MAX
    norm_num
  · rw [hp, round_eq, Int.floor_eq_iff]
    norm_num
  · have h3 : intToFloat ((2 : Int) + 1) = 3 := intToFloat_exact 3 (by norm_num)
    rw [simulationStep_defined _ _ _ (by unfold INT_MAX; norm_num)]
    simp only [hDT, hE, h3, floatAdd_first_step]
    norm_num
  · rw [hE, round_eq, Int.floor_eq_iff]
    norm_num

/-! ## The theorems at the example data -/

/-- Witness of C1: boxes of groups "A" and "B", not connected, with the single
record `AssignCollision B A`. -/
theorem nearCallback_contacts_iff_witness :
    ((∃ e ∈ nearCallback defaultParameters (collisionMapOf [("B", "A")]) sampleEnvironment
        sampleEngine sampleBoxA sampleBoxB, e.isCollide = true) ↔
      (sampleEnvironment.getCollisionGroupName sampleBoxA.data = "Collide" ∨
        sampleEnvironment.getCollisionGroupName sampleBoxB.data = "Collide" ∨
        ∃ r ∈ [("B", "A")], r = (sampleEnvironment.getCollisionGroupName sampleBoxA.data,
              sampleEnvironment.getCollisionGroupName sampleBoxB.data) ∨
          r = (sampleEnvironment.getCollisionGroupName sampleBoxB.data,
            sampleEnvironment.getCollisionGroupName sampleBoxA.data))) ∧
    ((∃ e ∈ nearCallback defaultParameters (collisionMapOf [("B", "A")]) sampleEnvironment
        sampleEngine sampleBoxA sampleBoxB, e.isCollide = true) →
      nearCallback defaultParameters (collisionMapOf [("B", "A")]) sampleEnvironment
        sampleEngine sampleBoxA sampleBoxB =
        generateContacts defaultParameters sampleEngine sampleBoxA sampleBoxB) ∧
    ((¬ ∃ e ∈ nearCallback defaultParameters (collisionMapOf [("B", "A")]) sampleEnvironment
        sampleEngine sampleBoxA sampleBoxB, e.isCollide = true) →
      nearCallback defaultParameters (collisionMapOf [("B", "A")]) sampleEnvironment
        sampleEngine sampleBoxA sampleBoxB = []) :=
  nearCallback_contacts_iff [("B", "A")] defaultParameters sampleEnvironment sampleEngine
    sampleBoxA sampleBoxB rfl rfl (by decide) (by decide) (by decide) (by decide)
    (by decide) (by decide) (by decide)

/-- Witness of C3: a box and a sphere whose bodies are joined; the sphere is in
the group "Collide". -/
theorem nearCallback_connected_witness :
    sampleEngine.dAreConnected (sampleEnvironment.getBody sampleBoxA.data)
        (sampleEnvironment.getBody sampleSphere.data) = true ∧
      sampleEnvironment.getCollisionGroupName sampleSphere.data = "Collide" ∧
      nearCallback defaultParameters (collisionMapOf [("A", "Collide")]) sampleEnvironment
        sampleEngine sampleBoxA sampleSphere = [] :=
  ⟨by decide, by decide,
    nearCallback_connected defaultParameters (collisionMapOf [("A", "Collide")])
      sampleEnvironment sampleEngine sampleBoxA sampleSphere rfl rfl (by decide) (by decide)
      (by decide) (by decide) (by decide) (by decide) (by decide)⟩

/-- Witness of C4: the ground plane against a box, with the empty collision
map. -/
theorem nearCallback_terrain_witness :
    nearCallback defaultParameters [] sampleEnvironment sampleEngine sampleGround sampleBoxA =
      Event.collide sampleGround sampleBoxA (floatToInt (defaultParameters "nContacts")) ::
        (sampleEngine.dCollide sampleGround sampleBoxA
          (floatToInt (defaultParameters "nContacts"))).map
          (fun c => Event.contactJoint c contactSurface c.g1.body c.g2.body) ∧
    ((nearCallback defaultParameters [] sampleEnvironment sampleEngine sampleGround
        sampleBoxA).filter Event.isContactJoint).length =
      (sampleEngine.dCollide sampleGround sampleBoxA
        (floatToInt (defaultParameters "nContacts"))).length :=
  nearCallback_terrain defaultParameters [] sampleEnvironment sampleEngine sampleGround
    sampleBoxA rfl rfl (by decide) (by decide) (Or.inl rfl)

/-- Witness of C7 (amended): the step that brings `evalStep` from 199 to the
`EvalSteps` set by `initializeParameters`. -/
theorem simulationStep_order_witness :
    sampleClock.evalStep < INT_MAX ∧
    ∃ s1 tail,
      s1.evalStep = sampleClock.evalStep + 1 ∧
      s1.evalTime = floatAdd sampleClock.evalTime (defaultParameters "DT") ∧
      (simulationStep floatAdd defaultParameters sampleClock = StepResult.running s1
          ([Effect.takeStep sampleClock.evalStep (defaultParameters "DT"), Effect.spaceCollide,
            Effect.worldStep (defaultParameters "DT"), Effect.jointGroupEmpty] ++ tail) ∨
        simulationStep floatAdd defaultParameters sampleClock = StepResult.exited s1
          ([Effect.takeStep sampleClock.evalStep (defaultParameters "DT"), Effect.spaceCollide,
            Effect.worldStep (defaultParameters "DT"), Effect.jointGroupEmpty] ++ tail)) ∧
      (tail = [] ∨ tail = endSimulation s1.evalStep) ∧
      (tail = endSimulation s1.evalStep ↔
        ((intToFloat s1.evalStep : Int) : ℚ) = defaultParameters "EvalSteps") ∧
      ((∃ t, simulationStep floatAdd defaultParameters sampleClock = StepResult.exited s1 t) ↔
        ((intToFloat s1.evalStep : Int) : ℚ) = defaultParameters "EvalSteps") ∧
      (s1.evalStep.natAbs ≤ 2 ^ 24 →
        (tail = endSimulation s1.evalStep ↔
          (s1.evalStep : ℚ) = defaultParameters "EvalSteps")) :=
  have hlt : sampleClock.evalStep < INT_MAX := by
    show (199 : Int) < 2 ^ 31 - 1
    norm_num
  ⟨hlt, simulationStep_order defaultParameters sampleClock hlt⟩

/-- Witness of C8: a box against a ray, the ray being the second geom. -/
theorem nearCallback_ray_witness :
    ∃ ray other : Geom,
      ((sampleBoxA.cls = GeomClass.ray ∧ ray = sampleBoxA ∧ other = sampleRay) ∨
        (sampleBoxA.cls ≠ GeomClass.ray ∧ ray = sampleRay ∧ other = sampleBoxA)) ∧
      ray.cls = GeomClass.ray ∧
      nearCallback defaultParameters [] sampleEnvironment sampleEngine sampleBoxA sampleRay =
        handleRayCollision sampleEngine ray other ∧
      handleRayCollision sampleEngine ray other =
        Event.collide ray other 1 ::
          (match (sampleEngine.dCollide ray other 1).head? with
           | none => []
           | some contact =>
             [Event.collisionUpdate ray.data contact.depth
               (if other.cls = GeomClass.plane ∨ other.cls = GeomClass.heightfield
                 then 0 else 1) 0 0]) ∧
      (nearCallback defaultParameters [] sampleEnvironment sampleEngine sampleBoxA
        sampleRay).filter Event.isContactJoint = [] ∧
      ((nearCallback defaultParameters [] sampleEnvironment sampleEngine sampleBoxA
        sampleRay).filter Event.isCollisionUpdate).length =
        (if sampleEngine.dCollide ray other 1 = [] then 0 else 1) :=
  nearCallback_ray defaultParameters [] sampleEnvironment sampleEngine sampleBoxA sampleRay
    rfl rfl (Or.inr rfl)

/-- Witness of C9 (amended): the ground plane against a box, and the step from
`evalStep = 2`, with `nContacts = 10.75` and `EvalSteps = 2.75`. -/
theorem parameters_read_unrounded_witness :
    (1 ≤ fractionalParameters "nContacts" ∧ fractionalParameters "nContacts" < 2 ^ 31) ∧
    contactLimit fractionalParameters = some ⌊fractionalParameters "nContacts"⌋ ∧
    (∀ (a b : Geom) (N : Int),
      Event.collide a b N ∈ nearCallback fractionalParameters [] sampleEnvironment sampleEngine
        sampleGround sampleBoxA →
      a.cls ≠ GeomClass.ray → N = ⌊fractionalParameters "nContacts"⌋) ∧
    ((∃ s1 t, simulationStep floatAdd fractionalParameters ⟨2, FloatValue.finite 0⟩ =
        StepResult.exited s1 t) ↔
      ((intToFloat ((2 : Int) + 1) : Int) : ℚ) = fractionalParameters "EvalSteps") ∧
    ((∀ n : Int, (n : ℚ) ≠ fractionalParameters "EvalSteps") →
      ∃ s1 t, simulationStep floatAdd fractionalParameters ⟨2, FloatValue.finite 0⟩ =
        StepResult.running s1 t) :=
  have hv1 : 1 ≤ fractionalParameters "nContacts" := by
    rw [fractionalParameters_values.1]
    norm_num
  have hv2 : fractionalParameters "nContacts" < 2 ^ 31 := by
    rw [fractionalParameters_values.1]
    norm_num
  ⟨⟨hv1, hv2⟩, parameters_read_unrounded floatAdd fractionalParameters [] sampleEnvironment
    sampleEngine sampleGround sampleBoxA ⟨2, FloatValue.finite 0⟩ hv1 hv2
    (by show (2 : Int) < 2 ^ 31 - 1; norm_num)⟩

end Pyrosim
